import Mathlib

/-!
Verification of the LE Advertising Manager and Classic Power Manager core of a
host-side Bluetooth stack, against its natural-language specification.

The definitions below are shallow embeddings of the C++ sources
(`system/gd/hci/le_advertising_manager.cc` and the `bta_dm_pm` device-manager
power-management file).  External collaborators (the HCI transport, the
BoringSSL AEAD primitive, the BTA configuration tables that live outside the
two files and the alarm service) appear as parameters of the embedded
functions, exactly where the source calls out to them.
-/

namespace BtStack

/-! ## Address policy module (le_advertising_manager.cc lines 113-157) -/

/-- Requested / effective advertiser address type. -/
inductive AdvertiserAddressType
  | public
  | resolvableRandom
  | nonresolvableRandom
deriving DecidableEq, Repr, Fintype

/-- Host address policy of the LE address manager. -/
inductive AddressPolicy
  | usePublicAddress
  | useStaticAddress
  | useResolvableAddress
  | useNonResolvableAddress
deriving DecidableEq, Repr, Fintype

/-- Embedding of `GetAdvertiserAddressTypeFromRequestedTypeAndPolicy`
(le_advertising_manager.cc:121-137). -/
def GetAdvertiserAddressTypeFromRequestedTypeAndPolicy
    (requested : AdvertiserAddressType) (policy : AddressPolicy) :
    AdvertiserAddressType :=
  match policy with
  | AddressPolicy.usePublicAddress => AdvertiserAddressType.public
  | AddressPolicy.useStaticAddress => AdvertiserAddressType.public
  | AddressPolicy.useResolvableAddress => requested
  | AddressPolicy.useNonResolvableAddress =>
      if requested = AdvertiserAddressType.resolvableRandom then
        AdvertiserAddressType.nonresolvableRandom
      else requested

/-- Embedding of `GetAdvertiserAddressTypeNonConnectable`
(le_advertising_manager.cc:145-157). -/
def GetAdvertiserAddressTypeNonConnectable
    (requested : AdvertiserAddressType) (policy : AddressPolicy) :
    AdvertiserAddressType :=
  match policy with
  | AddressPolicy.usePublicAddress =>
      if requested = AdvertiserAddressType.resolvableRandom then
        AdvertiserAddressType.nonresolvableRandom
      else requested
  | AddressPolicy.useStaticAddress =>
      if requested = AdvertiserAddressType.resolvableRandom then
        AdvertiserAddressType.nonresolvableRandom
      else requested
  | _ => GetAdvertiserAddressTypeFromRequestedTypeAndPolicy requested policy

/-- The strictest-of-the-two table exactly as printed in the specification
(spec section 4.2): rows are the requested type, columns the policy. -/
def specAddressTypeTable (requested : AdvertiserAddressType) (policy : AddressPolicy) :
    AdvertiserAddressType :=
  match requested, policy with
  | AdvertiserAddressType.public, _ => AdvertiserAddressType.public
  | _, AddressPolicy.usePublicAddress => AdvertiserAddressType.public
  | _, AddressPolicy.useStaticAddress => AdvertiserAddressType.public
  | r, AddressPolicy.useResolvableAddress => r
  | AdvertiserAddressType.resolvableRandom, AddressPolicy.useNonResolvableAddress =>
      AdvertiserAddressType.nonresolvableRandom
  | AdvertiserAddressType.nonresolvableRandom, AddressPolicy.useNonResolvableAddress =>
      AdvertiserAddressType.nonresolvableRandom

/-- Effective address type computed at advertiser creation
(le_advertising_manager.cc:523-529): the non-connectable variant is used
exactly when the `nrpa_non_connectable_adv` flag is set and the set is not
connectable. -/
def effectiveAddressTypeAtCreation (nrpaFlag connectable : Bool)
    (requested : AdvertiserAddressType) (policy : AddressPolicy) :
    AdvertiserAddressType :=
  if nrpaFlag && !connectable then
    GetAdvertiserAddressTypeNonConnectable requested policy
  else
    GetAdvertiserAddressTypeFromRequestedTypeAndPolicy requested policy

/-! ## Tx power calibration (le_advertising_manager.cc lines 55-61, 219-250) -/

def kLeAdvertisingTxPowerMin : Int := -127

def kLeAdvertisingTxPowerMax : Int := 20

def kLeTxPathLossCompMin : Int := -128

def kLeTxPathLossCompMax : Int := 127

/-- Embedding of `get_tx_path_loss_compensation`
(le_advertising_manager.cc:219-235): the property value, when parseable as an
integer, is accepted only inside `[-128, 127]`; otherwise compensation stays
zero. -/
def get_tx_path_loss_compensation (prop : Option Int) : Int :=
  match prop with
  | none => 0
  | some n =>
      if n < kLeTxPathLossCompMin ∨ n > kLeTxPathLossCompMax then 0 else n

/-- Embedding of `get_tx_power_after_calibration`
(le_advertising_manager.cc:237-250).  When the sum leaves `[-127, 20]` the
code keeps the uncalibrated power (it does NOT clip). -/
def get_tx_power_after_calibration (comp tx : Int) : Int :=
  if comp = 0 then tx
  else if tx + comp < kLeAdvertisingTxPowerMin ∨ tx + comp > kLeAdvertisingTxPowerMax then tx
  else tx + comp

/-- The claim's reading of the same computation: the sum clipped to
`[-127, 20]`. -/
def claimedClippedTxPower (comp tx : Int) : Int :=
  max kLeAdvertisingTxPowerMin (min kLeAdvertisingTxPowerMax (tx + comp))

/-! ## GAP data elements and their wire serialization -/

/-- A GAP advertising-data element: a data type octet and a payload.  On the
wire it is the length-type-value triple `<len, type, bytes>`. -/
structure GapData where
  data_type : Nat
  data : List Nat
deriving DecidableEq, Repr

/-- `GapData::size()`: serialized size of the triple, one length octet, one
type octet, and the payload. -/
def GapData.size (gd : GapData) : Nat := 2 + gd.data.length

/-- Serialization of one element exactly as the source emits it
(le_advertising_manager.cc:1626-1630 and 2292-2298): the length octet is
`(uint8_t)(1 + payload length)`, then the type octet, then the payload. -/
def gapSerialize (gd : GapData) : List Nat :=
  ((gd.data.length + 1) % 256) :: (gd.data_type % 256) :: gd.data

/-- Serialization of a whole element list: concatenation of the triples. -/
def serializeGapList (l : List GapData) : List Nat := (l.map gapSerialize).flatten

/-- Total serialized length of an element list, as the source accumulates it
with `data_len += data[i].size()`. -/
def totalGapSize (l : List GapData) : Nat := (l.map GapData.size).sum

/-- GapDataType::FLAGS. -/
def gapTypeFlags : Nat := 0x01

/-- GapDataType::TX_POWER_LEVEL. -/
def gapTypeTxPowerLevel : Nat := 0x0A

/-- GapDataType::ENCRYPTED_ADVERTISING_DATA (spec section 6: `0x31`). -/
def gapTypeEncryptedAdvertisingData : Nat := 0x31

theorem gapSerialize_length (gd : GapData) : (gapSerialize gd).length = gd.size := by
  simp [gapSerialize, GapData.size]
  omega

theorem serializeGapList_length (l : List GapData) :
    (serializeGapList l).length = totalGapSize l := by
  induction l with
  | nil => rfl
  | cons d rest ih =>
      simp [serializeGapList, totalGapSize] at ih ⊢
      rw [gapSerialize_length]
      omega

theorem serializeGapList_append (l₁ l₂ : List GapData) :
    serializeGapList (l₁ ++ l₂) = serializeGapList l₁ ++ serializeGapList l₂ := by
  simp [serializeGapList]

/-! ## Encrypted advertising sealing (le_advertising_manager.cc lines 1603-1681,
2274-2290) -/

/-- Type of the AEAD seal primitive `EVP_AEAD_CTX_seal_scatter` used with
`EVP_aead_aes_128_ccm_bluetooth`.  BoringSSL is an external library, so the
primitive is a parameter: `ccm key nonce aad plaintext = (ciphertext, tag)`.
For AES-128-CCM-bluetooth the ciphertext has the plaintext's length and the
tag (MIC) is 4 bytes; theorems take those facts as hypotheses. -/
def CcmSeal : Type := List Nat → List Nat → List Nat → List Nat → List Nat × List Nat

/-- Key/IV selection of `EncryptedAdvertising`
(le_advertising_manager.cc:1607-1615): the advertiser's `enc_key_value` if
non-empty, otherwise the persisted `BTIF_STORAGE_KEY_ENCR_DATA` blob. -/
def encKeyIvOf (enc_key_value storage_key_iv : List Nat) : List Nat :=
  if enc_key_value ≠ [] then enc_key_value else storage_key_iv

/-- The CCM nonce built by `EncryptedAdvertising`
(le_advertising_manager.cc:1620-1624): the reversed randomizer followed by
the reversed IV, where the IV is everything of the key-iv blob after the
first 16 bytes. -/
def encAdvNonce (key_iv randomizer : List Nat) : List Nat :=
  randomizer.reverse ++ (key_iv.drop 16).reverse

/-- Embedding of `LeAdvertisingManager::impl::EncryptedAdvertising`
(le_advertising_manager.cc:1603-1681).  The function splits the key-iv blob
into a 16-byte key and the remaining IV, seals the concatenated serialized
triples under nonce `reverse(randomizer) ++ reverse(iv)` with additional
authenticated data `[0xEA]`, and returns a GAP element of type
ENCRYPTED_ADVERTISING_DATA whose body is
`reverse(randomizer) ++ ciphertext ++ tag`. -/
def EncryptedAdvertising (ccm : CcmSeal) (enc_key_value storage_key_iv randomizer : List Nat)
    (data : List GapData) : GapData :=
  let key_iv := encKeyIvOf enc_key_value storage_key_iv
  let key := key_iv.take 16
  let nonce := encAdvNonce key_iv randomizer
  let ad := [0xEA]
  let inStream := serializeGapList data
  let sealed := ccm key nonce ad inStream
  { data_type := gapTypeEncryptedAdvertisingData
    data := randomizer.reverse ++ sealed.1 ++ sealed.2 }

/-! ## Extended advertising data fragmentation
(le_advertising_manager.cc lines 1231-1268, 1273-1334) -/

/-- Fragmentation operation of `LE_SET_EXTENDED_ADVERTISING_DATA`. -/
inductive Operation
  | completeAdvertisement
  | firstFragment
  | intermediateFragment
  | lastFragment
deriving DecidableEq, Repr

/-- Modelled from the spec: `kLeMaximumFragmentLength` is declared in
`le_advertising_manager.h`, which is not among the provided sources; the
specification fixes it at 252 bytes. -/
def kLeMaximumFragmentLength : Nat := 252

/-- Modelled from the spec: `kLeMaximumGapDataLength` is declared in
`le_advertising_manager.h`, which is not among the provided sources; the
specification states that any single data element larger than 254 bytes is
an error, so the limit is 254. -/
def kLeMaximumGapDataLength : Nat := 254

/-- Modelled from the spec: `kLeMaximumLegacyAdvertisingDataLength` is
declared in `le_advertising_manager.h`, which is not among the provided
sources; the specification caps legacy-PDU advertising data at 31 bytes. -/
def kLeMaximumLegacyAdvertisingDataLength : Nat := 31

/-- The fragmentation loop of `set_data`
(le_advertising_manager.cc:1255-1266), emitting `(operation, sub_data)`
pairs exactly as the source calls `send_data_fragment`: the accumulator
`sub` is flushed with the current `op` whenever the next element would push
`subLen` past `L`, the operation variable becomes INTERMEDIATE after any
flush, and on exhaustion the remaining accumulator is sent as LAST. -/
def set_data_fragments (L : Nat) (data : List GapData) (sub : List GapData)
    (subLen : Nat) (op : Operation) : List (Operation × List GapData) :=
  match data with
  | [] => [(Operation.lastFragment, sub)]
  | d :: rest =>
      if subLen + d.size > L then
        (op, sub) :: set_data_fragments L rest [d] d.size Operation.intermediateFragment
      else
        set_data_fragments L rest (sub ++ [d]) (subLen + d.size) op

theorem set_data_fragments_join (L : Nat) (data sub : List GapData) (subLen : Nat)
    (op : Operation) :
    ((set_data_fragments L data sub subLen op).map Prod.snd).flatten = sub ++ data := by
  induction data generalizing sub subLen op with
  | nil => simp [set_data_fragments]
  | cons d rest ih =>
      simp only [set_data_fragments]
      split_ifs with h
      · simp [ih]
      · simp [ih]

theorem set_data_fragments_bounded (L : Nat) (data sub : List GapData) (subLen : Nat)
    (op : Operation) (hsub : totalGapSize sub = subLen) (hlen : subLen ≤ L)
    (helem : ∀ d ∈ data, d.size ≤ L) :
    ∀ p ∈ set_data_fragments L data sub subLen op, totalGapSize p.2 ≤ L := by
  induction data generalizing sub subLen op with
  | nil =>
      intro p hp
      simp [set_data_fragments] at hp
      subst hp
      simpa [hsub] using hlen
  | cons d rest ih =>
      intro p hp
      simp only [set_data_fragments] at hp
      split_ifs at hp with h
      · rcases List.mem_cons.mp hp with hp | hp
        · subst hp; simpa [hsub] using hlen
        · exact ih [d] d.size Operation.intermediateFragment
            (by simp [totalGapSize]) (helem d (List.mem_cons_self d rest))
            (fun e he => helem e (List.mem_cons_of_mem d he)) p hp
      · exact ih (sub ++ [d]) (subLen + d.size) op
          (by simp [totalGapSize] at hsub ⊢; omega)
          (by omega)
          (fun e he => helem e (List.mem_cons_of_mem d he)) p hp

theorem set_data_fragments_ne_nil (L : Nat) (data sub : List GapData) (subLen : Nat)
    (op : Operation) : set_data_fragments L data sub subLen op ≠ [] := by
  induction data generalizing sub subLen op with
  | nil => simp [set_data_fragments]
  | cons d rest ih =>
      simp only [set_data_fragments]
      split_ifs with h
      · simp
      · exact ih (sub ++ [d]) (subLen + d.size) op

theorem set_data_fragments_length_one (L : Nat) (data sub : List GapData) (subLen : Nat)
    (op : Operation) (hlen : subLen ≤ L)
    (hone : (set_data_fragments L data sub subLen op).length = 1) :
    subLen + totalGapSize data ≤ L := by
  induction data generalizing sub subLen op with
  | nil => simpa [totalGapSize] using hlen
  | cons d rest ih =>
      simp only [set_data_fragments] at hone
      split_ifs at hone with h
      · exfalso
        have hne := set_data_fragments_ne_nil L rest [d] d.size Operation.intermediateFragment
        simp only [List.length_cons, Nat.add_left_inj] at hone
        exact hne (List.length_eq_zero.mp (by omega))
      · have := ih (sub ++ [d]) (subLen + d.size) op (by omega) hone
        simp [totalGapSize] at this ⊢
        omega

theorem set_data_fragments_ops (L : Nat) (data sub : List GapData) (subLen : Nat)
    (op : Operation) :
    ∃ k, (set_data_fragments L data sub subLen op).map Prod.fst =
      (if k = 0 then [] else op :: List.replicate (k - 1) Operation.intermediateFragment) ++
        [Operation.lastFragment] := by
  induction data generalizing sub subLen op with
  | nil => exact ⟨0, by simp [set_data_fragments]⟩
  | cons d rest ih =>
      simp only [set_data_fragments]
      split_ifs with h
      · obtain ⟨k, hk⟩ := ih [d] d.size Operation.intermediateFragment
        refine ⟨k + 1, ?_⟩
        simp only [List.map_cons, hk]
        cases k with
        | zero => simp
        | succ n => simp [List.replicate_succ]
      · exact ih (sub ++ [d]) (subLen + d.size) op

/-! ## The Extended set_data path (le_advertising_manager.cc lines 1121-1334) -/

/-- Advertising status codes surfaced to callbacks (error paths of
`set_data`). -/
inductive AdvertisingStatus
  | success
  | dataTooLarge
  | internalError
deriving DecidableEq, Repr

/-- Callback invocations performed synchronously by `set_data`. -/
inductive CallbackEvent
  | onAdvertisingDataSet (status : AdvertisingStatus)
  | onScanResponseDataSet (status : AdvertisingStatus)
deriving DecidableEq, Repr

/-- HCI commands enqueued by the EXTENDED branch of `set_data`:
`LE_SET_EXTENDED_ADVERTISING_DATA` / `LE_SET_EXTENDED_SCAN_RESPONSE_DATA`
with an operation and either an element-list payload (`send_data_fragment`)
or a raw byte payload (`send_data_fragment_with_raw_builder`). -/
inductive ExtDataCmd
  | frag (set_scan_rsp : Bool) (op : Operation) (payload : List GapData)
  | fragRaw (set_scan_rsp : Bool) (op : Operation) (payload : List Nat)
deriving DecidableEq, Repr

/-- Embedding of `data_has_flags` (le_advertising_manager.cc:1057-1064). -/
def data_has_flags (data : List GapData) : Bool :=
  data.any (fun gd => gd.data_type = gapTypeFlags)

/-- Host-configuration and per-advertiser inputs of `set_data`.
`leMaxDataLength` models the `uint16_t le_maximum_advertising_data_length_`
field (le_advertising_manager.cc:2122), hence is bounded by `2^16`. -/
structure SetDataCtx where
  divideFlag : Bool
  legacyCheckFlag : Bool
  leMaxDataLength : Fin 65536
  connectable : Bool
  discoverable : Bool
  isLegacy : Bool
  duration : Nat
  txPower : Nat
deriving DecidableEq, Repr

/-- FLAGS auto-insertion of `set_data`
(le_advertising_manager.cc:1122-1134): a FLAGS triple is prepended for
connectable + discoverable advertising data that has none; the single flag
octet is general-discoverable for indefinite sets and limited-discoverable
otherwise. -/
def insertFlagsIfNeeded (ctx : SetDataCtx) (set_scan_rsp : Bool)
    (data : List GapData) : List GapData :=
  if !set_scan_rsp && ctx.connectable && ctx.discoverable && !(data_has_flags data) then
    { data_type := gapTypeFlags
      data := [if ctx.duration = 0 then 0x02 else 0x01] } :: data
  else data

/-- TX-power patching of `set_data`
(le_advertising_manager.cc:1136-1142): the first TX_POWER_LEVEL element has
its first payload octet overwritten with the set's tx power. -/
def patchTxPower (tx : Nat) : List GapData → List GapData
  | [] => []
  | gd :: rest =>
      if gd.data_type = gapTypeTxPowerLevel then
        { gd with data := gd.data.set 0 (tx % 256) } :: rest
      else gd :: patchTxPower tx rest

/-- The element list `set_data` actually operates on: input data after FLAGS
insertion and TX-power patching. -/
def set_data_processed (ctx : SetDataCtx) (set_scan_rsp : Bool)
    (data : List GapData) : List GapData :=
  patchTxPower ctx.txPower (insertFlagsIfNeeded ctx set_scan_rsp data)

/-- The data-set or scan-response-set callback, as selected throughout
`set_data`. -/
def dataSetCallback (set_scan_rsp : Bool) (s : AdvertisingStatus) : CallbackEvent :=
  if set_scan_rsp then CallbackEvent.onScanResponseDataSet s
  else CallbackEvent.onAdvertisingDataSet s

/-- Modelled from the spec: `packet::FragmentingInserter` lives in the packet
library outside the provided sources; per the specification it serializes
all elements into a raw byte stream and splits it into fragments of at most
`L` bytes, in order. -/
def chunkBytes (L : Nat) (bytes : List Nat) : List (List Nat) :=
  if h₁ : bytes = [] then []
  else if h₂ : L = 0 then []
  else bytes.take L :: chunkBytes L (bytes.drop L)
termination_by bytes.length
decreasing_by
  simp only [List.length_drop]
  have hpos : 0 < bytes.length := List.length_pos.mpr h₁
  omega

/-- Operation selected for the `i`-th of `n` raw fragments
(le_advertising_manager.cc:1247-1254): LAST for the final one, FIRST for the
initial one, INTERMEDIATE in between. -/
def rawFragmentOp (i n : Nat) : Operation :=
  if i + 1 = n then Operation.lastFragment
  else if i = 0 then Operation.firstFragment
  else Operation.intermediateFragment

/-- Embedding of the EXTENDED branch of `set_data`
(le_advertising_manager.cc:1121-1270), returning the synchronously delivered
callback events and the enqueued data commands.  `set_data` reads but never
writes the advertiser record, so there is no state component.  The total
length is accumulated in a `uint16_t data_len` (cc:1189, 1208), so it wraps
modulo `2^16`; both the maximum-length gate (cc:1219) and the
complete-versus-fragment decision (cc:1233) read that wrapped value. -/
def set_data_extended (ctx : SetDataCtx) (set_scan_rsp : Bool)
    (data0 : List GapData) : List CallbackEvent × List ExtDataCmd :=
  let data := set_data_processed ctx set_scan_rsp data0
  let dataLimit := if ctx.divideFlag then kLeMaximumGapDataLength
                   else kLeMaximumFragmentLength
  if data.any (fun d => dataLimit < d.size) then
    ([dataSetCallback set_scan_rsp AdvertisingStatus.internalError], [])
  else
    let dataLen := totalGapSize data % 65536
    let maxDataLength := if ctx.legacyCheckFlag && ctx.isLegacy then
        kLeMaximumLegacyAdvertisingDataLength
      else (ctx.leMaxDataLength : Nat)
    if maxDataLength < dataLen then
      ([dataSetCallback set_scan_rsp AdvertisingStatus.dataTooLarge], [])
    else if dataLen ≤ kLeMaximumFragmentLength then
      ([], [ExtDataCmd.frag set_scan_rsp Operation.completeAdvertisement data])
    else if ctx.divideFlag then
      let fragments := chunkBytes kLeMaximumFragmentLength (serializeGapList data)
      ([], (fragments.enum).map
        (fun p => ExtDataCmd.fragRaw set_scan_rsp (rawFragmentOp p.1 fragments.length) p.2))
    else
      ([], (set_data_fragments kLeMaximumFragmentLength data [] 0
              Operation.firstFragment).map
        (fun p => ExtDataCmd.frag set_scan_rsp p.1 p.2))

theorem patchTxPower_sizes (tx : Nat) (l : List GapData) :
    (patchTxPower tx l).map GapData.size = l.map GapData.size := by
  induction l with
  | nil => rfl
  | cons gd rest ih =>
      simp only [patchTxPower]
      split_ifs with h
      · simp [GapData.size]
      · simp [ih]

theorem patchTxPower_totalGapSize (tx : Nat) (l : List GapData) :
    totalGapSize (patchTxPower tx l) = totalGapSize l := by
  simp [totalGapSize, patchTxPower_sizes]

theorem patchTxPower_size_mem (tx : Nat) (l : List GapData) (bound : Nat)
    (h : ∀ d ∈ l, d.size ≤ bound) :
    ∀ d ∈ patchTxPower tx l, d.size ≤ bound := by
  intro d hd
  have hmem : d.size ∈ (patchTxPower tx l).map GapData.size := List.mem_map_of_mem _ hd
  rw [patchTxPower_sizes] at hmem
  obtain ⟨e, he, hsz⟩ := List.mem_map.mp hmem
  exact hsz ▸ h e he

theorem insertFlagsIfNeeded_totalGapSize (ctx : SetDataCtx) (set_scan_rsp : Bool)
    (data : List GapData) :
    totalGapSize data ≤ totalGapSize (insertFlagsIfNeeded ctx set_scan_rsp data) := by
  unfold insertFlagsIfNeeded
  by_cases hcond :
      (!set_scan_rsp && ctx.connectable && ctx.discoverable && !(data_has_flags data)) = true
  · rw [if_pos hcond]
    simp [totalGapSize, GapData.size]
  · rw [if_neg hcond]

theorem insertFlagsIfNeeded_size_mem (ctx : SetDataCtx) (set_scan_rsp : Bool)
    (data : List GapData) (bound : Nat) (hb : 3 ≤ bound)
    (h : ∀ d ∈ data, d.size ≤ bound) :
    ∀ d ∈ insertFlagsIfNeeded ctx set_scan_rsp data, d.size ≤ bound := by
  intro d hd
  unfold insertFlagsIfNeeded at hd
  by_cases hcond :
      (!set_scan_rsp && ctx.connectable && ctx.discoverable && !(data_has_flags data)) = true
  · rw [if_pos hcond] at hd
    rcases List.mem_cons.mp hd with hd | hd
    · subst hd; simpa [GapData.size] using hb
    · exact h d hd
  · rw [if_neg hcond] at hd
    exact h d hd

theorem set_data_processed_totalGapSize (ctx : SetDataCtx) (set_scan_rsp : Bool)
    (data : List GapData) :
    totalGapSize data ≤ totalGapSize (set_data_processed ctx set_scan_rsp data) := by
  unfold set_data_processed
  rw [patchTxPower_totalGapSize]
  exact insertFlagsIfNeeded_totalGapSize ctx set_scan_rsp data

theorem set_data_processed_size_mem (ctx : SetDataCtx) (set_scan_rsp : Bool)
    (data : List GapData) (bound : Nat) (hb : 3 ≤ bound)
    (h : ∀ d ∈ data, d.size ≤ bound) :
    ∀ d ∈ set_data_processed ctx set_scan_rsp data, d.size ≤ bound :=
  patchTxPower_size_mem _ _ _
    (insertFlagsIfNeeded_size_mem ctx set_scan_rsp data bound hb h)

/-! ## Set-terminated handling (le_advertising_manager.cc lines 331-396) -/

/-- Error codes carried by the LE Advertising Set Terminated event, as
distinguished by `handle_set_terminated`. -/
inductive TermErrorCode
  | success
  | operationCancelledByHost
  | limitReached
  | advertisingTimeout
  | other (code : Nat)
deriving DecidableEq, Repr

/-- The per-advertiser state read and written by `handle_set_terminated`. -/
structure TerminationState where
  rotationAlarmPresent : Bool
  enabledHandleValid : Bool
  timeoutCallbackPresent : Bool
  regIdIsLocal : Bool
  directed : Bool
  duration : Nat
  maxExtendedAdvertisingEvents : Nat
deriving DecidableEq, Repr

/-- Observable effects of `handle_set_terminated`. -/
inductive TerminationEffect
  | cancelRotationAlarm
  | notifyAclSetTerminated (status : TermErrorCode)
  | runTimeoutCallback (status : TermErrorCode)
  | onAdvertisingEnabledCallback (enable : Bool) (status : TermErrorCode)
  | scheduleRotationAlarm
  | enableAdvertiserAgain
deriving DecidableEq, Repr

/-- Embedding of `handle_set_terminated`
(le_advertising_manager.cc:331-396) on a valid event view: new state plus
the list of effects in program order.  An event with status
OPERATION_CANCELLED_BY_HOST is dropped before anything is touched. -/
def handle_set_terminated (st : TerminationState) (status : TermErrorCode) :
    TerminationState × List TerminationEffect :=
  if status = TermErrorCode.operationCancelledByHost then (st, [])
  else
    let wasRotating := st.rotationAlarmPresent
    let st1 := { st with rotationAlarmPresent := false, enabledHandleValid := false }
    let effs0 := (if wasRotating then [TerminationEffect.cancelRotationAlarm] else []) ++
      [TerminationEffect.notifyAclSetTerminated status]
    if status = TermErrorCode.limitReached ∨ status = TermErrorCode.advertisingTimeout then
      if st.regIdIsLocal then
        if st.timeoutCallbackPresent then
          ({ st1 with timeoutCallbackPresent := false },
            effs0 ++ [TerminationEffect.runTimeoutCallback status])
        else (st1, effs0)
      else (st1, effs0 ++ [TerminationEffect.onAdvertisingEnabledCallback false status])
    else
      if !st.directed && st.duration = 0 && st.maxExtendedAdvertisingEvents = 0 then
        ({ st1 with rotationAlarmPresent := wasRotating, enabledHandleValid := true },
          effs0 ++ (if wasRotating then [TerminationEffect.scheduleRotationAlarm] else []) ++
            [TerminationEffect.enableAdvertiserAgain])
      else (st1, effs0)

/-! ## Address rotation and the encrypted re-write path
(le_advertising_manager.cc lines 827-906, 1564-1601, 1683-1992, 2193-2437) -/

/-- Advertising API variant selected at module start. -/
inductive AdvertisingApiType
  | legacy
  | androidHci
  | extended
deriving DecidableEq, Repr

/-- HCI commands enqueued on the rotation and data paths. -/
inductive HciCmd
  | extAdvEnable (enable : Bool)
  | legacyAdvEnable (enable : Bool)
  | multiAdvEnable (enable : Bool)
  | setAdvSetRandomAddress (addr : Nat)
  | extAdvData (set_scan_rsp : Bool) (op : Operation) (payload : List GapData)
  | extAdvDataRaw (set_scan_rsp : Bool) (op : Operation) (payload : List Nat)
  | legacyAdvData (set_scan_rsp : Bool) (payload : List GapData)
  | multiAdvData (set_scan_rsp : Bool) (payload : List GapData)
  | periodicDataCmd (op : Operation) (payload : List GapData)
  | periodicDataRaw (op : Operation) (payload : List Nat)
  | periodicEnable (enable : Bool) (include_adi : Bool)
deriving DecidableEq, Repr

/-- The advertiser-record fields read and written on these paths. -/
structure Advertiser where
  connectable : Bool
  discoverable : Bool
  started : Bool
  duration : Nat
  maxExtendedAdvertisingEvents : Nat
  txPower : Nat
  includeAdi : Bool
  advertisement : List GapData
  scan_response : List GapData
  periodic_data : List GapData
  advertisement_enc : List GapData
  scan_response_enc : List GapData
  periodic_data_enc : List GapData
  enc_key_value : List Nat
  randomizer : List Nat
deriving DecidableEq, Repr

/-- Module-level inputs of these paths: configuration, flags, and the
external collaborators (controller capabilities, storage blob, AEAD
primitive, the random-number generator's next 5 bytes, and the address the
address manager mints for this rotation).  `periodicFragmentLimit` stands
for the header constant `kLeMaximumPeriodicDataFragmentLength`, which is not
among the provided sources. -/
structure ImplEnv where
  apiType : AdvertisingApiType
  paused : Bool
  leMaxDataLength : Nat
  divideFlag : Bool
  supportsPeriodic : Bool
  supportsAdi : Bool
  periodicFragmentLimit : Nat
  storageKeyIv : List Nat
  ccm : CcmSeal
  freshRandomizer : List Nat
  newAddress : Nat

/-- kLenOfFlags (le_advertising_manager.cc:57). -/
def kLenOfFlags : Nat := 3

/-- Embedding of `check_advertising_data` (le_advertising_manager.cc:1066-1088):
true when the total (plus an auto-inserted FLAGS triple when applicable)
fits the controller maximum. -/
def check_advertising_data (leMax : Nat) (data : List GapData) (include_flag : Bool) : Bool :=
  totalGapSize data +
      (if include_flag && !(data_has_flags data) then kLenOfFlags else 0) ≤ leMax

/-- Embedding of `check_chained_data` (le_advertising_manager.cc:1581-1601):
true when the total (plus an auto-inserted FLAGS triple when applicable)
exceeds the fragment limit. -/
def check_chained_data (data : List GapData) (include_flag : Bool) : Bool :=
  kLeMaximumFragmentLength <
    totalGapSize data +
      (if include_flag && !(data_has_flags data) then kLenOfFlags else 0)

/-- FLAGS auto-insertion as performed inside `set_enc_data`
(le_advertising_manager.cc:1734-1744), driven by the advertiser record. -/
def insertFlagsAdv (adv : Advertiser) (set_scan_rsp : Bool)
    (data : List GapData) : List GapData :=
  if !set_scan_rsp && adv.connectable && adv.discoverable && !(data_has_flags data) then
    { data_type := gapTypeFlags
      data := [if adv.duration = 0 then 0x02 else 0x01] } :: data
  else data

/-- Commands enqueued by `enable_advertiser`
(le_advertising_manager.cc:1365-1430), per API variant. -/
def enable_advertiser_cmds (api : AdvertisingApiType) (enable : Bool) : List HciCmd :=
  if api = AdvertisingApiType.legacy then [HciCmd.legacyAdvEnable enable]
  else if api = AdvertisingApiType.androidHci then [HciCmd.multiAdvEnable enable]
  else [HciCmd.extAdvEnable enable]

/-- Embedding of `enable_periodic_advertising`
(le_advertising_manager.cc:1564-1579): nothing on controllers without
periodic support; ADI is dropped when unsupported. -/
def enable_periodic_advertising (env : ImplEnv) (enable include_adi : Bool) : List HciCmd :=
  if !env.supportsPeriodic then []
  else [HciCmd.periodicEnable enable (include_adi && env.supportsAdi)]

/-- Embedding of `encrypted_advertising_complete`
(le_advertising_manager.cc:2274-2437): regenerate the randomizer, seal the
encrypted plaintext, append the sealed element, and emit the data commands
(with a chained disable/enable pair around multi-fragment writes of a
started set, and a fresh enable when the set is not yet started and the host
is not paused).  Error paths surface callbacks and emit no commands; the
callback channel is not tracked here. -/
def encrypted_advertising_complete (env : ImplEnv) (adv : Advertiser) (set_scan_rsp : Bool)
    (data data_encrypt : List GapData) : Advertiser × List HciCmd :=
  let adv1 := { adv with randomizer := env.freshRandomizer }
  let encr := EncryptedAdvertising env.ccm adv.enc_key_value env.storageKeyIv
    env.freshRandomizer data_encrypt
  let dataAll := data ++ [encr]
  if env.apiType ≠ AdvertisingApiType.extended ∧
      ¬(check_advertising_data env.leMaxDataLength dataAll false = true) then
    (adv1, [])
  else
    let tail := if !adv.started && !env.paused then enable_advertiser_cmds env.apiType true
      else []
    if env.apiType = AdvertisingApiType.legacy then
      (adv1, [HciCmd.legacyAdvData set_scan_rsp dataAll] ++ tail)
    else if env.apiType = AdvertisingApiType.androidHci then
      (adv1, [HciCmd.multiAdvData set_scan_rsp dataAll] ++ tail)
    else
      if dataAll.any (fun d => kLeMaximumGapDataLength < d.size) then (adv1, [])
      else if env.leMaxDataLength < totalGapSize dataAll then (adv1, [])
      else
        let core :=
          if totalGapSize dataAll ≤ kLeMaximumFragmentLength then
            [HciCmd.extAdvData set_scan_rsp Operation.completeAdvertisement dataAll]
          else
            let chained := check_chained_data dataAll (adv.connectable && adv.discoverable)
            (if chained && adv.started then [HciCmd.extAdvEnable false] else []) ++
              ((set_data_fragments kLeMaximumFragmentLength dataAll [] 0
                  Operation.firstFragment).map
                (fun p => HciCmd.extAdvData set_scan_rsp p.1 p.2)) ++
              (if chained && adv.started then [HciCmd.extAdvEnable true] else [])
        (adv1, core ++ tail)

/-- Embedding of `set_enc_data` (le_advertising_manager.cc:1683-1900):
store the plaintexts in the record, insert FLAGS and patch TX power, then
either seal (encrypted plaintext present) or write the plain data.  Error
paths surface callbacks and emit no commands; the callback channel is not
tracked here. -/
def set_enc_data (env : ImplEnv) (adv : Advertiser) (set_scan_rsp : Bool)
    (data0 data_encrypt0 : List GapData) : Advertiser × List HciCmd :=
  let advStored := if set_scan_rsp then
      { adv with scan_response := data0, scan_response_enc := data_encrypt0 }
    else
      { adv with advertisement := data0, advertisement_enc := data_encrypt0 }
  let data := patchTxPower adv.txPower (insertFlagsAdv adv set_scan_rsp data0)
  let data_encrypt := patchTxPower adv.txPower data_encrypt0
  if data_encrypt ≠ [] then
    encrypted_advertising_complete env advStored set_scan_rsp data data_encrypt
  else
    if env.apiType ≠ AdvertisingApiType.extended ∧
        ¬(check_advertising_data env.leMaxDataLength data false = true) then
      (advStored, [])
    else if env.apiType = AdvertisingApiType.legacy then
      (advStored, [HciCmd.legacyAdvData set_scan_rsp data])
    else if env.apiType = AdvertisingApiType.androidHci then
      (advStored, [HciCmd.multiAdvData set_scan_rsp data])
    else
      if data.any (fun d => kLeMaximumGapDataLength < d.size) then (advStored, [])
      else if env.leMaxDataLength < totalGapSize data then (advStored, [])
      else if totalGapSize data ≤ kLeMaximumFragmentLength then
        (advStored, [HciCmd.extAdvData set_scan_rsp Operation.completeAdvertisement data])
      else
        let chained := check_chained_data data (adv.connectable && adv.discoverable)
        let raw := chunkBytes kLeMaximumFragmentLength (serializeGapList data)
        (advStored,
          (if chained && adv.started then [HciCmd.extAdvEnable false] else []) ++
            (raw.enum.map
              (fun p => HciCmd.extAdvDataRaw set_scan_rsp (rawFragmentOp p.1 raw.length) p.2)) ++
            (if chained && adv.started then [HciCmd.extAdvEnable true] else []))

/-- Embedding of `encrypted_periodic_advertising_complete`
(le_advertising_manager.cc:2193-2272). -/
def encrypted_periodic_advertising_complete (env : ImplEnv) (adv : Advertiser)
    (data data_encrypt : List GapData) : Advertiser × List HciCmd :=
  let adv1 := { adv with randomizer := env.freshRandomizer }
  let encr := EncryptedAdvertising env.ccm adv.enc_key_value env.storageKeyIv
    env.freshRandomizer data_encrypt
  let dataAll := data ++ [encr]
  if dataAll.any (fun d => kLeMaximumGapDataLength < d.size) then (adv1, [])
  else if env.leMaxDataLength < totalGapSize dataAll then (adv1, [])
  else
    let core :=
      if totalGapSize dataAll ≤ kLeMaximumFragmentLength then
        [HciCmd.periodicDataCmd Operation.completeAdvertisement dataAll]
      else
        (if adv.started then enable_periodic_advertising env false adv.includeAdi else []) ++
          ((set_data_fragments kLeMaximumFragmentLength dataAll [] 0
              Operation.firstFragment).map
            (fun p => HciCmd.periodicDataCmd p.1 p.2)) ++
          (if adv.started then enable_periodic_advertising env true adv.includeAdi else [])
    (adv1, core ++
      (if !adv.started then enable_periodic_advertising env true adv.includeAdi else []))

/-- Embedding of `set_periodic_enc_data`
(le_advertising_manager.cc:1902-1992). -/
def set_periodic_enc_data (env : ImplEnv) (adv : Advertiser)
    (data0 data_encrypt : List GapData) : Advertiser × List HciCmd :=
  let advStored := { adv with periodic_data := data0, periodic_data_enc := data_encrypt }
  if data_encrypt ≠ [] then
    encrypted_periodic_advertising_complete env advStored data0 data_encrypt
  else
    let dataLimit := if env.divideFlag then kLeMaximumGapDataLength
      else kLeMaximumFragmentLength
    if data0.any (fun d => dataLimit < d.size) then (advStored, [])
    else if env.leMaxDataLength < totalGapSize data0 then (advStored, [])
    else
      let fragLimit := if env.divideFlag then env.periodicFragmentLimit
        else kLeMaximumFragmentLength
      if totalGapSize data0 ≤ fragLimit then
        (advStored, [HciCmd.periodicDataCmd Operation.completeAdvertisement data0])
      else if env.divideFlag then
        let raw := chunkBytes env.periodicFragmentLimit (serializeGapList data0)
        (advStored,
          raw.enum.map (fun p => HciCmd.periodicDataRaw (rawFragmentOp p.1 raw.length) p.2))
      else
        (advStored,
          (set_data_fragments kLeMaximumFragmentLength data0 [] 0
              Operation.firstFragment).map
            (fun p => HciCmd.periodicDataCmd p.1 p.2))

/-- Embedding of `set_encrypted_advertiser_data`
(le_advertising_manager.cc:827-848): re-seal and re-write whichever payloads
carry encrypted plaintext. -/
def set_encrypted_advertiser_data (env : ImplEnv) (adv : Advertiser) :
    Advertiser × List HciCmd :=
  if adv.advertisement_enc ≠ [] then
    let r1 := set_enc_data env adv false adv.advertisement adv.advertisement_enc
    let r2 := set_enc_data env r1.1 true r1.1.scan_response r1.1.scan_response_enc
    if r2.1.periodic_data_enc ≠ [] then
      let r3 := set_periodic_enc_data env r2.1 r2.1.periodic_data r2.1.periodic_data_enc
      (r3.1, r1.2 ++ r2.2 ++ r3.2)
    else (r2.1, r1.2 ++ r2.2)
  else if adv.scan_response_enc ≠ [] then
    set_enc_data env adv true adv.scan_response adv.scan_response_enc
  else if adv.periodic_data_enc ≠ [] then
    set_periodic_enc_data env adv adv.periodic_data adv.periodic_data_enc
  else (adv, [])

/-- Embedding of `rotate_advertiser_address`
(le_advertising_manager.cc:850-861): enqueue the freshly minted random
address on Extended controllers (nothing otherwise). -/
def rotate_advertiser_address_cmds (env : ImplEnv) : List HciCmd :=
  if env.apiType = AdvertisingApiType.extended then
    [HciCmd.setAdvSetRandomAddress env.newAddress]
  else []

/-- Embedding of `set_advertising_set_random_address_on_timer`
(le_advertising_manager.cc:863-906): when the set is no longer enabled, the
alarm is cancelled and dropped (third component false = not rescheduled);
otherwise disable a connectable set, set the new random address, re-seal and
re-write any encrypted payloads, re-enable when connectable and not paused,
and re-schedule the alarm at the next private-address interval. -/
def set_advertising_set_random_address_on_timer (env : ImplEnv) (adv : Advertiser)
    (enabledHandleValid : Bool) : Advertiser × List HciCmd × Bool :=
  if !enabledHandleValid then (adv, [], false)
  else
    let disable := if adv.connectable then [HciCmd.extAdvEnable false] else []
    let encPair := set_encrypted_advertiser_data env adv
    let resume := if adv.connectable && !env.paused then [HciCmd.extAdvEnable true] else []
    (encPair.1, disable ++ rotate_advertiser_address_cmds env ++ encPair.2 ++ resume, true)

/-- True exactly for `LE_SET_ADVERTISING_SET_RANDOM_ADDRESS` commands. -/
def isSetRandomAddrCmd : HciCmd → Bool
  | HciCmd.setAdvSetRandomAddress _ => true
  | _ => false

/-- No command of the list is a `LE_SET_ADVERTISING_SET_RANDOM_ADDRESS`. -/
def noRandomCmds (l : List HciCmd) : Prop := ∀ c ∈ l, isSetRandomAddrCmd c = false

theorem noRandomCmds_nil : noRandomCmds [] := by
  intro c hc
  cases hc

theorem noRandomCmds_append {l₁ l₂ : List HciCmd} (h₁ : noRandomCmds l₁)
    (h₂ : noRandomCmds l₂) : noRandomCmds (l₁ ++ l₂) := by
  intro c hc
  rcases List.mem_append.mp hc with h | h
  exacts [h₁ c h, h₂ c h]

theorem noRandomCmds_singleton {c : HciCmd} (h : isSetRandomAddrCmd c = false) :
    noRandomCmds [c] := by
  intro d hd
  simp only [List.mem_singleton] at hd
  subst hd
  exact h

theorem noRandomCmds_map {α : Type} (f : α → HciCmd)
    (h : ∀ a, isSetRandomAddrCmd (f a) = false) (l : List α) :
    noRandomCmds (l.map f) := by
  intro c hc
  obtain ⟨a, -, ha⟩ := List.mem_map.mp hc
  subst ha
  exact h a

theorem noRandomCmds_enable_advertiser (api : AdvertisingApiType) (e : Bool) :
    noRandomCmds (enable_advertiser_cmds api e) := by
  unfold enable_advertiser_cmds
  split_ifs <;> exact noRandomCmds_singleton rfl

theorem noRandomCmds_enable_periodic (env : ImplEnv) (e a : Bool) :
    noRandomCmds (enable_periodic_advertising env e a) := by
  unfold enable_periodic_advertising
  split_ifs
  · exact noRandomCmds_nil
  · exact noRandomCmds_singleton rfl

theorem noRandom_encrypted_advertising_complete (env : ImplEnv) (adv : Advertiser)
    (s : Bool) (data de : List GapData) :
    noRandomCmds (encrypted_advertising_complete env adv s data de).2 := by
  simp only [encrypted_advertising_complete]
  split_ifs <;>
    repeat
      first
        | apply noRandomCmds_append
        | exact noRandomCmds_nil
        | exact noRandomCmds_singleton rfl
        | (apply noRandomCmds_map; intro a; exact rfl)
        | exact noRandomCmds_enable_advertiser env.apiType true

theorem noRandom_set_enc_data (env : ImplEnv) (adv : Advertiser) (s : Bool)
    (data0 de0 : List GapData) :
    noRandomCmds (set_enc_data env adv s data0 de0).2 := by
  simp only [set_enc_data]
  split_ifs <;>
    repeat
      first
        | apply noRandom_encrypted_advertising_complete
        | apply noRandomCmds_append
        | exact noRandomCmds_nil
        | exact noRandomCmds_singleton rfl
        | (apply noRandomCmds_map; intro a; exact rfl)

theorem noRandom_encrypted_periodic_advertising_complete (env : ImplEnv)
    (adv : Advertiser) (data de : List GapData) :
    noRandomCmds (encrypted_periodic_advertising_complete env adv data de).2 := by
  simp only [encrypted_periodic_advertising_complete]
  split_ifs <;>
    repeat
      first
        | apply noRandomCmds_append
        | exact noRandomCmds_nil
        | exact noRandomCmds_singleton rfl
        | (apply noRandomCmds_map; intro a; exact rfl)
        | apply noRandomCmds_enable_periodic

theorem noRandom_set_periodic_enc_data (env : ImplEnv) (adv : Advertiser)
    (data0 de : List GapData) :
    noRandomCmds (set_periodic_enc_data env adv data0 de).2 := by
  simp only [set_periodic_enc_data]
  split_ifs <;>
    repeat
      first
        | apply noRandom_encrypted_periodic_advertising_complete
        | apply noRandomCmds_append
        | exact noRandomCmds_nil
        | exact noRandomCmds_singleton rfl
        | (apply noRandomCmds_map; intro a; exact rfl)

theorem noRandom_set_encrypted_advertiser_data (env : ImplEnv) (adv : Advertiser) :
    noRandomCmds (set_encrypted_advertiser_data env adv).2 := by
  simp only [set_encrypted_advertiser_data]
  split_ifs <;>
    repeat
      first
        | apply noRandom_set_enc_data
        | apply noRandom_set_periodic_enc_data
        | apply noRandomCmds_append
        | exact noRandomCmds_nil

/-! ## Classic Power Manager: bta_dm_pm_set_mode (bta_dm_pm lines 505-667) -/

/-- Modelled from the spec: the PM action bit constants come from `bta_api.h`,
which is not among the provided sources; the specification's strictness order
PARK < SNIFF < SUSPEND "matches the original numeric comparison", with PARK
and SNIFF the two low-power bits combined by `(PARK | SNIFF)` masks. -/
def BTA_DM_PM_NO_ACTION : Nat := 0x00

def BTA_DM_PM_PARK : Nat := 0x10

def BTA_DM_PM_SNIFF : Nat := 0x20

def BTA_DM_PM_SUSPEND : Nat := 0x04

/-- Modelled from the spec: `BTA_ALL_APP_ID` (wildcard app id in the PM
configuration table) comes from a header outside the provided sources. -/
def BTA_ALL_APP_ID : Nat := 0xFF

/-- Total indexing into the spec table (out-of-range indices fall back to a
default row; the source indexes with trusted in-range indices). -/
def specAt : List PmSpec → Nat → PmSpec → PmSpec
  | [], _, d => d
  | x :: _, 0, _ => x
  | _ :: xs, n + 1, d => specAt xs n d

/-- One row of the external `p_bta_dm_pm_cfg` table: service id, app id (or
wildcard), index into the PM spec table. -/
structure PmCfg where
  id : Nat
  app_id : Nat
  spec_idx : Nat
deriving DecidableEq, Repr

/-- One action of the external PM spec table: desired power mode and timeout. -/
structure PmActn where
  power_mode : Nat
  timeout : Nat
deriving DecidableEq, Repr

/-- One row of the external `get_bta_dm_pm_spec()` table: allow-mask, SSR
index, and the per-connection-status action table. -/
structure PmSpec where
  allow_mask : Nat
  ssr : Nat
  actn_tbl : Nat → PmActn

/-- One entry of `bta_dm_conn_srvcs`: `{id, app_id, state, peer, new_request}`. -/
structure PmSrvc where
  id : Nat
  app_id : Nat
  state : Nat
  peer : Nat
  new_request : Bool
deriving DecidableEq, Repr

/-- Request kind of `bta_dm_pm_set_mode`. -/
inductive PmReq
  | newReq
  | restart
  | execute
deriving DecidableEq, Repr

/-- The `p_bta_dm_pm_cfg` scan of `bta_dm_pm_set_mode`
(bta_dm_pm lines 542-547): the first row matching the service id and app id
(or the wildcard app id). -/
def pm_cfg_lookup (cfg : List PmCfg) (id app_id : Nat) : Option PmCfg :=
  cfg.find? (fun c => c.id == id && (c.app_id == BTA_ALL_APP_ID || c.app_id == app_id))

/-- Accumulator of the service scan in `bta_dm_pm_set_mode`:
`pm_action`, `timeout_ms`, `allowed_modes`, `pref_modes`. -/
structure SetModeAcc where
  pm_action : Nat
  timeout_ms : Nat
  allowed : Nat
  pref : Nat
deriving DecidableEq, Repr

/-- One iteration of the service scan of `bta_dm_pm_set_mode`
(bta_dm_pm lines 538-577): for a service of the target peer, OR the spec's
allow-mask into `allowed`; when the action for the service's state is not in
the failed mask, OR it into `pref` and adopt it when numerically at least
the current `pm_action`, adopting the timeout (and clearing `new_request`)
unless this is a NEW request and the service has no new request.  A service
without a configuration row is skipped (the callers only create table
entries for configured services). -/
def set_mode_scan_step (cfg : List PmCfg) (specs : List PmSpec) (dfltSpec : PmSpec)
    (failed_pm peer : Nat) (pm_req : PmReq) (acc : SetModeAcc) (s : PmSrvc) :
    SetModeAcc × PmSrvc :=
  if s.peer = peer then
    match pm_cfg_lookup cfg s.id s.app_id with
    | none => (acc, s)
    | some c =>
      let sp := specAt specs c.spec_idx dfltSpec
      let act := sp.actn_tbl s.state
      let acc1 := { acc with allowed := acc.allowed ||| sp.allow_mask }
      if failed_pm &&& act.power_mode = 0 then
        let acc2 := { acc1 with pref := acc1.pref ||| act.power_mode }
        if acc2.pm_action ≤ act.power_mode then
          if pm_req ≠ PmReq.newReq ∨ s.new_request = true then
            ({ acc2 with pm_action := act.power_mode, timeout_ms := act.timeout },
              { s with new_request := false })
          else ({ acc2 with pm_action := act.power_mode }, s)
        else (acc2, s)
      else (acc1, s)
  else (acc, s)

/-- The full service scan of `bta_dm_pm_set_mode` over `bta_dm_conn_srvcs`. -/
def set_mode_scan (cfg : List PmCfg) (specs : List PmSpec) (dfltSpec : PmSpec)
    (failed_pm peer : Nat) (pm_req : PmReq) :
    List PmSrvc → SetModeAcc → SetModeAcc × List PmSrvc
  | [], acc => (acc, [])
  | s :: rest, acc =>
      let r := set_mode_scan_step cfg specs dfltSpec failed_pm peer pm_req acc s
      let rr := set_mode_scan cfg specs dfltSpec failed_pm peer pm_req rest r.1
      (rr.1, r.2 :: rr.2)

/-- The PARK/SNIFF narrowing of `bta_dm_pm_set_mode`
(bta_dm_pm lines 579-592): when the chosen action is a low-power mode some
service disallows, replace it by `(allowed & (PARK|SNIFF) & preferred)`,
zeroing the timeout when that is NO_ACTION. -/
def set_mode_decision (acc : SetModeAcc) : SetModeAcc :=
  if acc.pm_action &&& (BTA_DM_PM_PARK ||| BTA_DM_PM_SNIFF) ≠ 0 then
    if acc.allowed &&& acc.pm_action = 0 then
      let newAction := acc.allowed &&& (BTA_DM_PM_PARK ||| BTA_DM_PM_SNIFF) &&& acc.pref
      if newAction = BTA_DM_PM_NO_ACTION then
        { acc with pm_action := newAction, timeout_ms := 0 }
      else { acc with pm_action := newAction }
    else acc
  else acc

/-- The scan starts from `pm_action = NO_ACTION`, zero timeout, empty
allow/preference masks (bta_dm_pm lines 508-514). -/
def setModeInitAcc : SetModeAcc :=
  { pm_action := BTA_DM_PM_NO_ACTION, timeout_ms := 0, allowed := 0, pref := 0 }

/-- One pass of `bta_dm_pm_set_mode` up to the point where an action is
chosen: the scan followed by the PARK/SNIFF narrowing. -/
def bta_dm_pm_set_mode_pass (cfg : List PmCfg) (specs : List PmSpec) (dfltSpec : PmSpec)
    (failed_pm peer : Nat) (pm_req : PmReq) (srvcs : List PmSrvc) :
    SetModeAcc × List PmSrvc :=
  let r := set_mode_scan cfg specs dfltSpec failed_pm peer pm_req srvcs setModeInitAcc
  (set_mode_decision r.1, r.2)

/-- The actions proposed for the peer: for each of the peer's service
entries with a configuration row, the spec action for its current state,
kept only when it shares no bit with the failed mask. -/
def peerProposals (cfg : List PmCfg) (specs : List PmSpec) (dfltSpec : PmSpec)
    (failed_pm peer : Nat) (srvcs : List PmSrvc) : List Nat :=
  srvcs.filterMap (fun s =>
    if s.peer = peer then
      match pm_cfg_lookup cfg s.id s.app_id with
      | some c =>
          let a := ((specAt specs c.spec_idx dfltSpec).actn_tbl s.state).power_mode
          if failed_pm &&& a = 0 then some a else none
      | none => none
    else none)

/-- The OR of the allow-masks of the peer's configured services. -/
def peerAllowedMask (cfg : List PmCfg) (specs : List PmSpec) (dfltSpec : PmSpec)
    (peer : Nat) (srvcs : List PmSrvc) : Nat :=
  srvcs.foldr (fun s m =>
    if s.peer = peer then
      match pm_cfg_lookup cfg s.id s.app_id with
      | some c => (specAt specs c.spec_idx dfltSpec).allow_mask ||| m
      | none => m
    else m) 0

/-- The OR of the non-failed proposed actions (`pref_modes`). -/
def peerPrefMask (cfg : List PmCfg) (specs : List PmSpec) (dfltSpec : PmSpec)
    (failed_pm peer : Nat) (srvcs : List PmSrvc) : Nat :=
  (peerProposals cfg specs dfltSpec failed_pm peer srvcs).foldr (fun a m => a ||| m) 0

theorem set_mode_scan_cons (cfg : List PmCfg) (specs : List PmSpec) (dfltSpec : PmSpec)
    (failed_pm peer : Nat) (pm_req : PmReq) (s : PmSrvc) (rest : List PmSrvc)
    (acc : SetModeAcc) :
    (set_mode_scan cfg specs dfltSpec failed_pm peer pm_req (s :: rest) acc).1 =
      (set_mode_scan cfg specs dfltSpec failed_pm peer pm_req rest
        (set_mode_scan_step cfg specs dfltSpec failed_pm peer pm_req acc s).1).1 := rfl

theorem peerProposals_cons (cfg : List PmCfg) (specs : List PmSpec) (dfltSpec : PmSpec)
    (failed_pm peer : Nat) (s : PmSrvc) (rest : List PmSrvc) :
    peerProposals cfg specs dfltSpec failed_pm peer (s :: rest) =
      (if s.peer = peer then
        (match pm_cfg_lookup cfg s.id s.app_id with
          | some c =>
            if failed_pm &&&
                ((specAt specs c.spec_idx dfltSpec).actn_tbl s.state).power_mode = 0 then
              ((specAt specs c.spec_idx dfltSpec).actn_tbl s.state).power_mode ::
                peerProposals cfg specs dfltSpec failed_pm peer rest
            else peerProposals cfg specs dfltSpec failed_pm peer rest
          | none => peerProposals cfg specs dfltSpec failed_pm peer rest)
      else peerProposals cfg specs dfltSpec failed_pm peer rest) := by
  unfold peerProposals
  rw [List.filterMap_cons]
  by_cases hp : s.peer = peer
  · cases hc : pm_cfg_lookup cfg s.id s.app_id with
    | none => simp [hp]
    | some c =>
        by_cases hfail : failed_pm &&&
            ((specAt specs c.spec_idx dfltSpec).actn_tbl s.state).power_mode = 0 <;>
          simp [hp, hfail]
  · simp [hp]

theorem peerAllowedMask_cons (cfg : List PmCfg) (specs : List PmSpec) (dfltSpec : PmSpec)
    (peer : Nat) (s : PmSrvc) (rest : List PmSrvc) :
    peerAllowedMask cfg specs dfltSpec peer (s :: rest) =
      (if s.peer = peer then
        (match pm_cfg_lookup cfg s.id s.app_id with
          | some c => (specAt specs c.spec_idx dfltSpec).allow_mask |||
              peerAllowedMask cfg specs dfltSpec peer rest
          | none => peerAllowedMask cfg specs dfltSpec peer rest)
      else peerAllowedMask cfg specs dfltSpec peer rest) := rfl

theorem peerPrefMask_cons (cfg : List PmCfg) (specs : List PmSpec) (dfltSpec : PmSpec)
    (failed_pm peer : Nat) (s : PmSrvc) (rest : List PmSrvc) :
    peerPrefMask cfg specs dfltSpec failed_pm peer (s :: rest) =
      (if s.peer = peer then
        (match pm_cfg_lookup cfg s.id s.app_id with
          | some c =>
            if failed_pm &&&
                ((specAt specs c.spec_idx dfltSpec).actn_tbl s.state).power_mode = 0 then
              ((specAt specs c.spec_idx dfltSpec).actn_tbl s.state).power_mode |||
                peerPrefMask cfg specs dfltSpec failed_pm peer rest
            else peerPrefMask cfg specs dfltSpec failed_pm peer rest
          | none => peerPrefMask cfg specs dfltSpec failed_pm peer rest)
      else peerPrefMask cfg specs dfltSpec failed_pm peer rest) := by
  unfold peerPrefMask
  rw [peerProposals_cons]
  by_cases hp : s.peer = peer
  · cases hc : pm_cfg_lookup cfg s.id s.app_id with
    | none => simp [hp]
    | some c =>
        by_cases hfail : failed_pm &&&
            ((specAt specs c.spec_idx dfltSpec).actn_tbl s.state).power_mode = 0 <;>
          simp [hp, hfail]
  · simp [hp]

theorem set_mode_scan_allowed (cfg : List PmCfg) (specs : List PmSpec) (dfltSpec : PmSpec)
    (failed_pm peer : Nat) (pm_req : PmReq) (srvcs : List PmSrvc) :
    ∀ acc : SetModeAcc,
      (set_mode_scan cfg specs dfltSpec failed_pm peer pm_req srvcs acc).1.allowed =
        acc.allowed ||| peerAllowedMask cfg specs dfltSpec peer srvcs := by
  induction srvcs with
  | nil => intro acc; simp [set_mode_scan, peerAllowedMask]
  | cons s rest ih =>
      intro acc
      rw [set_mode_scan_cons, ih, peerAllowedMask_cons]
      unfold set_mode_scan_step
      by_cases hp : s.peer = peer
      · simp only [if_pos hp]
        cases hc : pm_cfg_lookup cfg s.id s.app_id with
        | none => rfl
        | some c =>
            simp only []
            split_ifs with hfail hge hnr <;> exact Nat.lor_assoc _ _ _
      · simp [hp]

theorem set_mode_scan_pref (cfg : List PmCfg) (specs : List PmSpec) (dfltSpec : PmSpec)
    (failed_pm peer : Nat) (pm_req : PmReq) (srvcs : List PmSrvc) :
    ∀ acc : SetModeAcc,
      (set_mode_scan cfg specs dfltSpec failed_pm peer pm_req srvcs acc).1.pref =
        acc.pref ||| peerPrefMask cfg specs dfltSpec failed_pm peer srvcs := by
  induction srvcs with
  | nil => intro acc; simp [set_mode_scan, peerPrefMask, peerProposals]
  | cons s rest ih =>
      intro acc
      rw [set_mode_scan_cons, ih, peerPrefMask_cons]
      unfold set_mode_scan_step
      by_cases hp : s.peer = peer
      · simp only [if_pos hp]
        cases hc : pm_cfg_lookup cfg s.id s.app_id with
        | none => rfl
        | some c =>
            simp only []
            split_ifs with hfail hge hnr
            · exact Nat.lor_assoc _ _ _
            · exact Nat.lor_assoc _ _ _
            · exact Nat.lor_assoc _ _ _
            · rfl
      · simp [hp]

theorem set_mode_scan_pm_action (cfg : List PmCfg) (specs : List PmSpec)
    (dfltSpec : PmSpec) (failed_pm peer : Nat) (pm_req : PmReq) (srvcs : List PmSrvc) :
    ∀ acc : SetModeAcc,
      (set_mode_scan cfg specs dfltSpec failed_pm peer pm_req srvcs acc).1.pm_action =
        (peerProposals cfg specs dfltSpec failed_pm peer srvcs).foldl max acc.pm_action := by
  induction srvcs with
  | nil => intro acc; simp [set_mode_scan, peerProposals]
  | cons s rest ih =>
      intro acc
      rw [set_mode_scan_cons, ih, peerProposals_cons]
      unfold set_mode_scan_step
      by_cases hp : s.peer = peer
      · simp only [if_pos hp]
        cases hc : pm_cfg_lookup cfg s.id s.app_id with
        | none => rfl
        | some c =>
            simp only []
            split_ifs with hfail hge hnr
            · rw [List.foldl_cons]
              congr 1
              exact (Nat.max_eq_right hge).symm
            · rw [List.foldl_cons]
              congr 1
              exact (Nat.max_eq_right hge).symm
            · rw [List.foldl_cons]
              congr 1
              exact (Nat.max_eq_left (Nat.le_of_not_le hge)).symm
            · rfl
      · simp [hp]

theorem set_mode_decision_pm_action (acc : SetModeAcc) :
    (set_mode_decision acc).pm_action =
      (if acc.pm_action &&& (BTA_DM_PM_PARK ||| BTA_DM_PM_SNIFF) ≠ 0 ∧
          acc.allowed &&& acc.pm_action = 0
       then acc.allowed &&& (BTA_DM_PM_PARK ||| BTA_DM_PM_SNIFF) &&& acc.pref
       else acc.pm_action) := by
  unfold set_mode_decision
  by_cases h1 : acc.pm_action &&& (BTA_DM_PM_PARK ||| BTA_DM_PM_SNIFF) ≠ 0
  · by_cases h2 : acc.allowed &&& acc.pm_action = 0
    · by_cases h3 : acc.allowed &&& (BTA_DM_PM_PARK ||| BTA_DM_PM_SNIFF) &&& acc.pref =
          BTA_DM_PM_NO_ACTION <;> simp [h1, h2, h3]
    · simp [h1, h2]
  · simp [h1]

theorem set_mode_decision_timeout (acc : SetModeAcc) :
    (set_mode_decision acc).timeout_ms =
      (if acc.pm_action &&& (BTA_DM_PM_PARK ||| BTA_DM_PM_SNIFF) ≠ 0 ∧
          acc.allowed &&& acc.pm_action = 0 ∧
          acc.allowed &&& (BTA_DM_PM_PARK ||| BTA_DM_PM_SNIFF) &&& acc.pref =
            BTA_DM_PM_NO_ACTION
       then 0
       else acc.timeout_ms) := by
  unfold set_mode_decision
  by_cases h1 : acc.pm_action &&& (BTA_DM_PM_PARK ||| BTA_DM_PM_SNIFF) ≠ 0
  · by_cases h2 : acc.allowed &&& acc.pm_action = 0
    · by_cases h3 : acc.allowed &&& (BTA_DM_PM_PARK ||| BTA_DM_PM_SNIFF) &&& acc.pref =
          BTA_DM_PM_NO_ACTION <;> simp [h1, h2, h3]
    · simp [h1, h2]
  · simp [h1]

/-- C3: in a single `bta_dm_pm_set_mode` pass over the connected services of a
peer, the `pm_action` produced by the service scan is the numerical maximum
(under the strictness order) of the power-mode actions proposed by the peer's
configured service entries for their current states, with actions in the
peer's `pm_mode_failed` mask excluded; and the final action after the
PARK/SNIFF check equals that maximum unless the maximum contains a PARK or
SNIFF bit absent from the OR of the services' allow-masks, in which case it
is replaced by `allowed & (PARK|SNIFF) & preferred`, with the timeout zeroed
exactly when that replacement is NO_ACTION. -/
theorem C3_pm_set_mode_strictness (cfg : List PmCfg) (specs : List PmSpec)
    (dfltSpec : PmSpec) (failed_pm peer : Nat) (pm_req : PmReq) (srvcs : List PmSrvc) :
    (set_mode_scan cfg specs dfltSpec failed_pm peer pm_req srvcs setModeInitAcc).1.pm_action =
      (peerProposals cfg specs dfltSpec failed_pm peer srvcs).foldl max 0 ∧
    (bta_dm_pm_set_mode_pass cfg specs dfltSpec failed_pm peer pm_req srvcs).1.pm_action =
      (if (peerProposals cfg specs dfltSpec failed_pm peer srvcs).foldl max 0 &&&
            (BTA_DM_PM_PARK ||| BTA_DM_PM_SNIFF) ≠ 0 ∧
          peerAllowedMask cfg specs dfltSpec peer srvcs &&&
            (peerProposals cfg specs dfltSpec failed_pm peer srvcs).foldl max 0 = 0
       then peerAllowedMask cfg specs dfltSpec peer srvcs &&&
              (BTA_DM_PM_PARK ||| BTA_DM_PM_SNIFF) &&&
              peerPrefMask cfg specs dfltSpec failed_pm peer srvcs
       else (peerProposals cfg specs dfltSpec failed_pm peer srvcs).foldl max 0) ∧
    (bta_dm_pm_set_mode_pass cfg specs dfltSpec failed_pm peer pm_req srvcs).1.timeout_ms =
      (if (peerProposals cfg specs dfltSpec failed_pm peer srvcs).foldl max 0 &&&
            (BTA_DM_PM_PARK ||| BTA_DM_PM_SNIFF) ≠ 0 ∧
          peerAllowedMask cfg specs dfltSpec peer srvcs &&&
            (peerProposals cfg specs dfltSpec failed_pm peer srvcs).foldl max 0 = 0 ∧
          peerAllowedMask cfg specs dfltSpec peer srvcs &&&
            (BTA_DM_PM_PARK ||| BTA_DM_PM_SNIFF) &&&
            peerPrefMask cfg specs dfltSpec failed_pm peer srvcs = BTA_DM_PM_NO_ACTION
       then 0
       else (set_mode_scan cfg specs dfltSpec failed_pm peer pm_req srvcs
              setModeInitAcc).1.timeout_ms) := by
  have hM : (set_mode_scan cfg specs dfltSpec failed_pm peer pm_req srvcs
        setModeInitAcc).1.pm_action =
      (peerProposals cfg specs dfltSpec failed_pm peer srvcs).foldl max 0 :=
    set_mode_scan_pm_action cfg specs dfltSpec failed_pm peer pm_req srvcs setModeInitAcc
  have hA : (set_mode_scan cfg specs dfltSpec failed_pm peer pm_req srvcs
        setModeInitAcc).1.allowed =
      peerAllowedMask cfg specs dfltSpec peer srvcs := by
    rw [set_mode_scan_allowed cfg specs dfltSpec failed_pm peer pm_req srvcs setModeInitAcc]
    exact Nat.zero_or _
  have hP : (set_mode_scan cfg specs dfltSpec failed_pm peer pm_req srvcs
        setModeInitAcc).1.pref =
      peerPrefMask cfg specs dfltSpec failed_pm peer srvcs := by
    rw [set_mode_scan_pref cfg specs dfltSpec failed_pm peer pm_req srvcs setModeInitAcc]
    exact Nat.zero_or _
  refine ⟨hM, ?_, ?_⟩
  · show (set_mode_decision (set_mode_scan cfg specs dfltSpec failed_pm peer pm_req srvcs
        setModeInitAcc).1).pm_action = _
    rw [set_mode_decision_pm_action, hM, hA, hP]
  · show (set_mode_decision (set_mode_scan cfg specs dfltSpec failed_pm peer pm_req srvcs
        setModeInitAcc).1).timeout_ms = _
    rw [set_mode_decision_timeout, hM, hA, hP]

/-! ## Theorems for claims C6 and C9 -/

/-- C6: for every requested advertiser address type and host address policy
the policy-narrowing function equals the strictest-of-the-two table of the
specification (requested Public always yields Public; Public/Static policy
always yields Public; RPA policy honors the request; NRPA policy narrows RPA
to NRPA and keeps NRPA); and the separate non-connectable variant used at
creation for non-connectable sets deviates from that table exactly by
returning NRPA for a random request under the Public/Static policy. -/
theorem C6_effective_address_type_table :
    (∀ (req : AdvertiserAddressType) (policy : AddressPolicy),
      GetAdvertiserAddressTypeFromRequestedTypeAndPolicy req policy =
        specAddressTypeTable req policy) ∧
    (∀ (req : AdvertiserAddressType) (policy : AddressPolicy),
      GetAdvertiserAddressTypeNonConnectable req policy =
        (if (policy = AddressPolicy.usePublicAddress ∨ policy = AddressPolicy.useStaticAddress)
            ∧ req ≠ AdvertiserAddressType.public
         then AdvertiserAddressType.nonresolvableRandom
         else specAddressTypeTable req policy)) ∧
    (∀ (flag conn : Bool) (req : AdvertiserAddressType) (policy : AddressPolicy),
      (conn = true ∨ flag = false) →
      effectiveAddressTypeAtCreation flag conn req policy = specAddressTypeTable req policy) := by
  refine ⟨by decide, by decide, ?_⟩
  intro flag conn req policy h
  have hb : (flag && !conn) = false := by
    rcases h with h | h <;> simp [h]
  rw [effectiveAddressTypeAtCreation, hb]
  simp only [Bool.false_eq_true, if_false]
  revert req policy
  decide

/-- Witness for the hypothesis of `C6_effective_address_type_table`'s third
conjunct at a concrete input. -/
theorem C6_effective_address_type_table_witness :
    effectiveAddressTypeAtCreation true true AdvertiserAddressType.resolvableRandom
      AddressPolicy.useResolvableAddress =
      specAddressTypeTable AdvertiserAddressType.resolvableRandom
        AddressPolicy.useResolvableAddress :=
  C6_effective_address_type_table.2.2 true true
    AdvertiserAddressType.resolvableRandom AddressPolicy.useResolvableAddress (Or.inl rfl)

/-- C9 counterexample: with compensation `-20` (a value accepted by the
`[-128,127]` gate) and requested power `-120`, the sum `-140` leaves
`[-127, 20]`; the code keeps `-120` whereas clipping as claimed would give
`-127`. -/
theorem C9_tx_power_not_clipped_counterexample :
    get_tx_path_loss_compensation (some (-20)) = -20 ∧
    get_tx_power_after_calibration (-20) (-120) = -120 ∧
    claimedClippedTxPower (-20) (-120) = -127 ∧
    get_tx_power_after_calibration (-20) (-120) ≠ claimedClippedTxPower (-20) (-120) := by
  refine ⟨by decide, by decide, by decide, by decide⟩

/-- C9 (amended): the configured compensation is accepted only inside
`[-128, 127]` (otherwise it stays 0), and the calibrated power is the sum
`tx + comp` when that sum lies in `[-127, 20]`, and the unmodified requested
power otherwise — no clipping takes place. -/
theorem C9_tx_power_calibration (comp tx n : Int)
    (hcomp : -128 ≤ comp ∧ comp ≤ 127) (htx : -128 ≤ tx ∧ tx ≤ 127)
    (hn : n < -128 ∨ 127 < n) :
    get_tx_path_loss_compensation (some n) = 0 ∧
    get_tx_power_after_calibration comp tx =
      (if -127 ≤ tx + comp ∧ tx + comp ≤ 20 then tx + comp else tx) := by
  constructor
  · simp only [get_tx_path_loss_compensation, kLeTxPathLossCompMin, kLeTxPathLossCompMax]
    split_ifs with h
    · rfl
    · exfalso; omega
  · simp only [get_tx_power_after_calibration, kLeAdvertisingTxPowerMin,
      kLeAdvertisingTxPowerMax]
    by_cases h0 : comp = 0
    · subst h0
      rw [if_pos rfl]
      split_ifs with h <;> omega
    · rw [if_neg h0]
      split_ifs <;> omega

/-- Witness for `C9_tx_power_calibration` at a concrete input. -/
theorem C9_tx_power_calibration_witness :
    get_tx_path_loss_compensation (some 200) = 0 ∧
    get_tx_power_after_calibration 3 10 =
      (if -127 ≤ (10 : Int) + 3 ∧ (10 : Int) + 3 ≤ 20 then (10 : Int) + 3 else 10) :=
  C9_tx_power_calibration 3 10 200 (by decide) (by decide) (by decide)

/-! ## Theorems for claim C1 (encrypted advertising sealing) -/

/-- C1 counterexample: with the 32-byte key-iv blob `0, 1, ..., 31` and the
5-byte randomizer `A0 A1 A2 A3 A4`, the CCM nonce assembled by
`EncryptedAdvertising` is the reversed randomizer followed by the reversed
16-byte IV (everything after the first 16 key bytes), i.e. 21 bytes — not
the 13 bytes stated by the claim. -/
theorem C1_nonce_length_counterexample :
    ((List.range 32).drop 16).length = 16 ∧
    (encAdvNonce (List.range 32) [0xA0, 0xA1, 0xA2, 0xA3, 0xA4]).length = 21 ∧
    (encAdvNonce (List.range 32) [0xA0, 0xA1, 0xA2, 0xA3, 0xA4]).length ≠ 13 := by
  refine ⟨by decide, by decide, by decide⟩

/-- C1 (amended): for every plaintext element list, 32-byte key-iv blob
(16-byte key followed by 16-byte IV) and 5-byte randomizer, sealing produces
one GAP element of type ENCRYPTED_ADVERTISING_DATA whose body is
`reverse(randomizer) ++ ciphertext ++ MIC`, where the ciphertext/MIC come
from AES-128-CCM (abstract primitive `ccm`, length-preserving with a 4-byte
tag) over the concatenated serialized length-type-value triples, under key =
first 16 bytes, nonce = `reverse(randomizer) ++ reverse(iv)` — which is 21
bytes, not 13 — and additional authenticated data `[0xEA]`. -/
theorem C1_encrypted_advertising_seal (ccm : CcmSeal)
    (enc_key_value storage_key_iv randomizer : List Nat) (data : List GapData)
    (hkv : (encKeyIvOf enc_key_value storage_key_iv).length = 32)
    (hr : randomizer.length = 5)
    (hct : ∀ k n a m, ((ccm k n a m).1).length = m.length)
    (hmic : ∀ k n a m, ((ccm k n a m).2).length = 4) :
    EncryptedAdvertising ccm enc_key_value storage_key_iv randomizer data =
      { data_type := gapTypeEncryptedAdvertisingData
        data := randomizer.reverse ++
          (ccm ((encKeyIvOf enc_key_value storage_key_iv).take 16)
              (encAdvNonce (encKeyIvOf enc_key_value storage_key_iv) randomizer)
              [0xEA] (serializeGapList data)).1 ++
          (ccm ((encKeyIvOf enc_key_value storage_key_iv).take 16)
              (encAdvNonce (encKeyIvOf enc_key_value storage_key_iv) randomizer)
              [0xEA] (serializeGapList data)).2 } ∧
    ((ccm ((encKeyIvOf enc_key_value storage_key_iv).take 16)
        (encAdvNonce (encKeyIvOf enc_key_value storage_key_iv) randomizer)
        [0xEA] (serializeGapList data)).1).length = totalGapSize data ∧
    ((ccm ((encKeyIvOf enc_key_value storage_key_iv).take 16)
        (encAdvNonce (encKeyIvOf enc_key_value storage_key_iv) randomizer)
        [0xEA] (serializeGapList data)).2).length = 4 ∧
    (encAdvNonce (encKeyIvOf enc_key_value storage_key_iv) randomizer).length = 21 ∧
    ((EncryptedAdvertising ccm enc_key_value storage_key_iv randomizer data).data).length =
      5 + totalGapSize data + 4 := by
  refine ⟨rfl, ?_, hmic _ _ _ _, ?_, ?_⟩
  · rw [hct, serializeGapList_length]
  · simp [encAdvNonce, hkv, hr]
  · simp only [EncryptedAdvertising, List.length_append, List.length_reverse, hr,
      hct, hmic, serializeGapList_length]

/-- Witness for `C1_encrypted_advertising_seal` at a concrete input, using a
length-preserving dummy AEAD. -/
theorem C1_encrypted_advertising_seal_witness :
    ((EncryptedAdvertising (fun _ _ _ m => (m, [0, 0, 0, 0])) (List.range 32) []
        [1, 2, 3, 4, 5] [{ data_type := 0xFF, data := [0xBE, 0xEF] }]).data).length =
      5 + totalGapSize [{ data_type := 0xFF, data := [0xBE, 0xEF] }] + 4 :=
  (C1_encrypted_advertising_seal (fun _ _ _ m => (m, [0, 0, 0, 0])) (List.range 32) []
    [1, 2, 3, 4, 5] [{ data_type := 0xFF, data := [0xBE, 0xEF] }]
    (by decide) (by decide) (fun _ _ _ _ => rfl) (fun _ _ _ _ => rfl)).2.2.2.2

/-! ## Theorems for claims C4 and C5 (length gate and fragmentation) -/

set_option maxRecDepth 4096 in
/-- C4 counterexample: a single element whose serialized size (253) exceeds
the per-element limit (252) while the total (253) also exceeds the
controller maximum (here 100).  The code surfaces INTERNAL_ERROR, not the
DATA_TOO_LARGE required by the claim (though it does enqueue zero
commands). -/
theorem C4_length_gate_counterexample :
    100 < totalGapSize [{ data_type := 0x09, data := List.replicate 251 0x41 }] ∧
    set_data_extended
        { divideFlag := false, legacyCheckFlag := false, leMaxDataLength := 100,
          connectable := false, discoverable := false, isLegacy := false,
          duration := 0, txPower := 0 }
        false [{ data_type := 0x09, data := List.replicate 251 0x41 }] =
      ([CallbackEvent.onAdvertisingDataSet AdvertisingStatus.internalError], []) ∧
    ([CallbackEvent.onAdvertisingDataSet AdvertisingStatus.internalError] : List CallbackEvent) ≠
      [CallbackEvent.onAdvertisingDataSet AdvertisingStatus.dataTooLarge] := by
  refine ⟨by decide, by decide, by decide⟩

/-- C4 (amended): for every Extended-API `set_data` call whose processed
elements each respect the per-element data limit and whose total serialized
length — accumulated, as in the code, in a 16-bit counter and therefore read
modulo `2^16` — exceeds the effective maximum data length (the 31-byte
legacy cap when the legacy-length flag is set and the set is legacy,
otherwise the controller-reported `uint16_t` maximum), the call surfaces
DATA_TOO_LARGE through the matching data-set or scan-response-set callback
and enqueues zero HCI commands; `set_data` never writes the advertiser
record, so its state is unchanged.  (Totals of 64 KiB or more can wrap the
counter below the maximum, in which case the gate passes and commands are
enqueued; the hypothesis is therefore on the wrapped value.) -/
theorem C4_length_gate (ctx : SetDataCtx) (set_scan_rsp : Bool) (data0 : List GapData)
    (helem : ∀ d ∈ set_data_processed ctx set_scan_rsp data0,
      d.size ≤ (if ctx.divideFlag then kLeMaximumGapDataLength else kLeMaximumFragmentLength))
    (htot : (if ctx.legacyCheckFlag && ctx.isLegacy then kLeMaximumLegacyAdvertisingDataLength
             else (ctx.leMaxDataLength : Nat)) <
      totalGapSize (set_data_processed ctx set_scan_rsp data0) % 65536) :
    set_data_extended ctx set_scan_rsp data0 =
      ([dataSetCallback set_scan_rsp AdvertisingStatus.dataTooLarge], []) := by
  have hany : ((set_data_processed ctx set_scan_rsp data0).any
      (fun d => (if ctx.divideFlag then kLeMaximumGapDataLength
                 else kLeMaximumFragmentLength) < d.size)) = false := by
    rw [List.any_eq_false]
    intro d hd
    simpa using Nat.not_lt.mpr (helem d hd)
  simp only [set_data_extended, hany, Bool.false_eq_true, if_false, if_pos htot]

set_option maxRecDepth 4096 in
/-- Witness for `C4_length_gate` at a concrete input. -/
theorem C4_length_gate_witness :
    set_data_extended
        { divideFlag := false, legacyCheckFlag := false, leMaxDataLength := 100,
          connectable := false, discoverable := false, isLegacy := false,
          duration := 0, txPower := 0 }
        false [{ data_type := 0x09, data := List.replicate 58 7 },
               { data_type := 0x09, data := List.replicate 58 8 }] =
      ([dataSetCallback false AdvertisingStatus.dataTooLarge], []) :=
  C4_length_gate _ false _ (by decide) (by decide)

set_option maxRecDepth 8192 in
/-- The 16-bit accumulator wraps: 261 elements of serialized size 252 (true
total 65772, above the controller maximum 1650) wrap to 236, the gate
passes, and a single COMPLETE command is enqueued. -/
theorem set_data_uint16_wrap_passes_gate :
    1650 < totalGapSize (List.replicate 261
      ({ data_type := 0x09, data := List.replicate 250 0x41 } : GapData)) ∧
    set_data_extended
        { divideFlag := false, legacyCheckFlag := false, leMaxDataLength := 1650,
          connectable := false, discoverable := false, isLegacy := false,
          duration := 0, txPower := 0 }
        false
        (List.replicate 261 { data_type := 0x09, data := List.replicate 250 0x41 }) =
      ([], [ExtDataCmd.frag false Operation.completeAdvertisement
        (List.replicate 261 { data_type := 0x09, data := List.replicate 250 0x41 })]) :=
  ⟨by decide, by rfl⟩

theorem serializeGapList_flatten (gs : List (List GapData)) :
    (gs.map serializeGapList).flatten = serializeGapList gs.flatten := by
  induction gs with
  | nil => rfl
  | cons g rest ih => simp [serializeGapList_append, ih]

/-- C5: for every element list handled by Extended `set_data` whose total
serialized length exceeds the 252-byte fragment limit (each element within
the limit, the whole within the effective maximum, raw-byte division flag
off), the enqueued commands are exactly the fragments of the fragmentation
loop: a FIRST fragment, zero or more INTERMEDIATE fragments and a LAST
fragment, each fragment's serialized payload at most 252 bytes, and the
concatenation of the fragment payload serializations equals the
serialization of the element list. -/
theorem C5_fragmentation (ctx : SetDataCtx) (set_scan_rsp : Bool) (data0 : List GapData)
    (hdiv : ctx.divideFlag = false)
    (helem : ∀ d ∈ set_data_processed ctx set_scan_rsp data0,
      d.size ≤ kLeMaximumFragmentLength)
    (htot : kLeMaximumFragmentLength < totalGapSize (set_data_processed ctx set_scan_rsp data0))
    (hmax : totalGapSize (set_data_processed ctx set_scan_rsp data0) ≤
      (if ctx.legacyCheckFlag && ctx.isLegacy then kLeMaximumLegacyAdvertisingDataLength
       else ctx.leMaxDataLength)) :
    set_data_extended ctx set_scan_rsp data0 =
      ([], (set_data_fragments kLeMaximumFragmentLength
              (set_data_processed ctx set_scan_rsp data0) [] 0 Operation.firstFragment).map
          (fun p => ExtDataCmd.frag set_scan_rsp p.1 p.2)) ∧
    ((set_data_fragments kLeMaximumFragmentLength
        (set_data_processed ctx set_scan_rsp data0) [] 0 Operation.firstFragment).map
      (fun p => serializeGapList p.2)).flatten =
      serializeGapList (set_data_processed ctx set_scan_rsp data0) ∧
    (∀ p ∈ set_data_fragments kLeMaximumFragmentLength
        (set_data_processed ctx set_scan_rsp data0) [] 0 Operation.firstFragment,
      (serializeGapList p.2).length ≤ kLeMaximumFragmentLength) ∧
    2 ≤ (set_data_fragments kLeMaximumFragmentLength
        (set_data_processed ctx set_scan_rsp data0) [] 0 Operation.firstFragment).length ∧
    (set_data_fragments kLeMaximumFragmentLength
        (set_data_processed ctx set_scan_rsp data0) [] 0 Operation.firstFragment).map
        Prod.fst =
      Operation.firstFragment ::
        (List.replicate
            ((set_data_fragments kLeMaximumFragmentLength
                (set_data_processed ctx set_scan_rsp data0) [] 0
                Operation.firstFragment).length - 2)
            Operation.intermediateFragment ++ [Operation.lastFragment]) := by
  have hlen2 : 2 ≤ (set_data_fragments kLeMaximumFragmentLength
      (set_data_processed ctx set_scan_rsp data0) [] 0 Operation.firstFragment).length := by
    by_contra hlt
    push_neg at hlt
    interval_cases hfl : (set_data_fragments kLeMaximumFragmentLength
        (set_data_processed ctx set_scan_rsp data0) [] 0 Operation.firstFragment).length
    · exact set_data_fragments_ne_nil _ _ _ _ _ (List.length_eq_zero.mp hfl)
    · have := set_data_fragments_length_one kLeMaximumFragmentLength
        (set_data_processed ctx set_scan_rsp data0) [] 0 Operation.firstFragment
        (by omega) hfl
      omega
  refine ⟨?_, ?_, ?_, hlen2, ?_⟩
  · have hany : ((set_data_processed ctx set_scan_rsp data0).any
        (fun d => kLeMaximumFragmentLength < d.size)) = false := by
      rw [List.any_eq_false]
      intro d hd
      simpa using Nat.not_lt.mpr (helem d hd)
    have hlt : totalGapSize (set_data_processed ctx set_scan_rsp data0) < 65536 := by
      by_cases hleg : (ctx.legacyCheckFlag && ctx.isLegacy) = true
      · rw [if_pos hleg] at hmax
        exact absurd (lt_of_lt_of_le htot hmax) (by decide)
      · rw [if_neg hleg] at hmax
        exact lt_of_le_of_lt hmax ctx.leMaxDataLength.isLt
    simp only [set_data_extended, hdiv, Bool.false_eq_true, if_false, hany,
      Nat.mod_eq_of_lt hlt, if_neg (Nat.not_lt.mpr hmax), if_neg (Nat.not_le.mpr htot)]
  · rw [show (fun (p : Operation × List GapData) => serializeGapList p.2) =
        serializeGapList ∘ Prod.snd from rfl, ← List.map_map, serializeGapList_flatten,
      set_data_fragments_join]
    simp
  · intro p hp
    rw [serializeGapList_length]
    exact set_data_fragments_bounded kLeMaximumFragmentLength
      (set_data_processed ctx set_scan_rsp data0) [] 0 Operation.firstFragment rfl
      (by omega) helem p hp
  · obtain ⟨k, hk⟩ := set_data_fragments_ops kLeMaximumFragmentLength
      (set_data_processed ctx set_scan_rsp data0) [] 0 Operation.firstFragment
    have hmaplen := congrArg List.length hk
    rw [List.length_map] at hmaplen
    cases k with
    | zero =>
        exfalso
        simp at hmaplen
        omega
    | succ n =>
        have hlen : (set_data_fragments kLeMaximumFragmentLength
            (set_data_processed ctx set_scan_rsp data0) [] 0
            Operation.firstFragment).length = n + 2 := by
          simp at hmaplen
          omega
        rw [hk, hlen]
        simp

/-! ## Theorems for claims C2 and C10 (rotation and set-terminated) -/

/-- C10: an LE Advertising Set Terminated event with status
OPERATION_CANCELLED_BY_HOST is dropped entirely: no callback fires, the
rotation alarm is untouched, and the advertiser's record and enabled-state
tracking are unchanged. -/
theorem C10_cancelled_by_host_dropped (st : TerminationState) :
    handle_set_terminated st TermErrorCode.operationCancelledByHost = (st, []) := by
  simp [handle_set_terminated]

/-- Module inputs for the C2 scenarios: Extended API, nothing encrypted, the
dummy AEAD is never reached. -/
def envC2 (paused : Bool) : ImplEnv :=
  { apiType := AdvertisingApiType.extended, paused := paused, leMaxDataLength := 1650,
    divideFlag := false, supportsPeriodic := true, supportsAdi := true,
    periodicFragmentLimit := 247, storageKeyIv := [],
    ccm := fun _ _ _ m => (m, [0, 0, 0, 0]), freshRandomizer := [1, 2, 3, 4, 5],
    newAddress := 7 }

/-- An enabled connectable advertiser with no encrypted payloads. -/
def advC2 : Advertiser :=
  { connectable := true, discoverable := false, started := true, duration := 0,
    maxExtendedAdvertisingEvents := 0, txPower := 0, includeAdi := false,
    advertisement := [], scan_response := [], periodic_data := [],
    advertisement_enc := [], scan_response_enc := [], periodic_data_enc := [],
    enc_key_value := [], randomizer := [] }

/-- C2 counterexample: when the rotation timer fires while the host is
paused, the emitted sequence is `DISABLE, SET_RANDOM_ADDRESS` with no final
ENABLE — the claim's required trailing set-enable ENABLED command is
suppressed (exactly as the spec's pause/rotation note says). -/
theorem C2_rotation_paused_counterexample :
    (set_advertising_set_random_address_on_timer (envC2 true) advC2 true).2.1 =
      [HciCmd.extAdvEnable false, HciCmd.setAdvSetRandomAddress 7] ∧
    (set_advertising_set_random_address_on_timer (envC2 true) advC2 true).2.1.getLast? ≠
      some (HciCmd.extAdvEnable true) := by
  constructor
  · rfl
  · intro h
    rw [show (set_advertising_set_random_address_on_timer (envC2 true) advC2 true).2.1 =
        [HciCmd.extAdvEnable false, HciCmd.setAdvSetRandomAddress 7] from rfl] at h
    simp at h

/-- C2 (amended): for every firing of the address-rotation timer on a
currently enabled, connectable advertising set under the Extended API,
provided the host is not paused, the enqueued HCI sequence begins with a
set-enable DISABLED command and ends with a set-enable ENABLED command with
exactly one LE_SET_ADVERTISING_SET_RANDOM_ADDRESS command (carrying the
freshly minted random address) in between, and the rotation alarm is
re-scheduled.  (While paused, the trailing ENABLE is suppressed and the
normal resume path re-enables the set.) -/
theorem C2_rotation_sequence (env : ImplEnv) (adv : Advertiser)
    (hapi : env.apiType = AdvertisingApiType.extended)
    (hconn : adv.connectable = true)
    (hpause : env.paused = false) :
    (set_advertising_set_random_address_on_timer env adv true).2.2 = true ∧
    ((set_advertising_set_random_address_on_timer env adv true).2.1.countP
      (fun c => isSetRandomAddrCmd c)) = 1 ∧
    ∃ mid : List HciCmd,
      (set_advertising_set_random_address_on_timer env adv true).2.1 =
        HciCmd.extAdvEnable false :: HciCmd.setAdvSetRandomAddress env.newAddress ::
          (mid ++ [HciCmd.extAdvEnable true]) ∧
      noRandomCmds mid := by
  have hnr := noRandom_set_encrypted_advertiser_data env adv
  have hshape : (set_advertising_set_random_address_on_timer env adv true).2.1 =
      HciCmd.extAdvEnable false :: HciCmd.setAdvSetRandomAddress env.newAddress ::
        ((set_encrypted_advertiser_data env adv).2 ++ [HciCmd.extAdvEnable true]) := by
    simp [set_advertising_set_random_address_on_timer, rotate_advertiser_address_cmds,
      hapi, hconn, hpause]
  refine ⟨by simp [set_advertising_set_random_address_on_timer], ?_, ⟨_, hshape, hnr⟩⟩
  have hz : (set_encrypted_advertiser_data env adv).2.countP
      (fun c => isSetRandomAddrCmd c) = 0 := by
    rw [List.countP_eq_zero]
    intro c hc
    simpa using hnr c hc
  rw [hshape, List.countP_cons, List.countP_cons, List.countP_append, hz]
  rfl

/-- Witness for `C2_rotation_sequence` at a concrete input. -/
theorem C2_rotation_sequence_witness :
    ((set_advertising_set_random_address_on_timer (envC2 false) advC2 true).2.1.countP
      (fun c => isSetRandomAddrCmd c)) = 1 :=
  (C2_rotation_sequence (envC2 false) advC2 rfl rfl rfl).2.1

set_option maxRecDepth 4096 in
/-- Witness for `C5_fragmentation` at a concrete input: two 152-byte
elements, 304 bytes total. -/
theorem C5_fragmentation_witness :
    2 ≤ (set_data_fragments kLeMaximumFragmentLength
        (set_data_processed
          { divideFlag := false, legacyCheckFlag := false, leMaxDataLength := 1650,
            connectable := false, discoverable := false, isLegacy := false,
            duration := 0, txPower := 0 } false
          [{ data_type := 0x09, data := List.replicate 150 1 },
           { data_type := 0x09, data := List.replicate 150 2 }]) [] 0
        Operation.firstFragment).length :=
  (C5_fragmentation
    { divideFlag := false, legacyCheckFlag := false, leMaxDataLength := 1650,
      connectable := false, discoverable := false, isLegacy := false,
      duration := 0, txPower := 0 } false
    [{ data_type := 0x09, data := List.replicate 150 1 },
     { data_type := 0x09, data := List.replicate 150 2 }]
    rfl (by decide) (by decide) (by decide)).2.2.2.1

/-! ## Classic Power Manager: sniff subrating under SCO
(bta_dm_pm lines 344-492, 826-899, 1117-1126) -/

/-- Modelled from the spec: the SSR table indices come from `bta_api.h`,
outside the provided sources; `BTA_DM_PM_SSR_HH` is `BTA_DM_PM_SSR1`
(bta_dm_pm line 64). -/
def BTA_DM_PM_SSR0 : Nat := 0

def BTA_DM_PM_SSR1 : Nat := 1

def BTA_DM_PM_SSR_HH : Nat := BTA_DM_PM_SSR1

def BTA_DM_PM_SSR4 : Nat := 4

/-- Modelled from the spec: the NO_PREF pseudo-mode ("do not care", §7) from
`bta_api.h`, outside the provided sources. -/
def BTA_DM_PM_NO_PREF : Nat := 0x01

/-- Modelled from the spec: subsystem id tags (`bta_sys.h`, outside the
provided sources); only their distinctness matters to the model. -/
def BTA_ID_AG : Nat := 5

def BTA_ID_AV : Nat := 18

/-- Modelled from the spec: the system connection status codes
(`bta_sys.h`, outside the provided sources), in declaration order. -/
def BTA_SYS_CONN_OPEN : Nat := 0

def BTA_SYS_CONN_CLOSE : Nat := 1

def BTA_SYS_APP_OPEN : Nat := 2

def BTA_SYS_APP_CLOSE : Nat := 3

def BTA_SYS_SCO_OPEN : Nat := 4

def BTA_SYS_SCO_CLOSE : Nat := 5

def BTA_SYS_CONN_IDLE : Nat := 6

def BTA_SYS_CONN_BUSY : Nat := 7

/-- One row of the external `p_bta_dm_ssr_spec` table (name string dropped). -/
structure SsrSpec where
  max_lat : Nat
  min_rmt_to : Nat
  min_loc_to : Nat
deriving DecidableEq, Repr

/-- One `BTM_SetSsrParams(peer, max_lat, min_rmt_to, min_loc_to)` call. -/
structure SsrCall where
  peer : Nat
  max_lat : Nat
  min_rmt_to : Nat
  min_loc_to : Nat
deriving DecidableEq, Repr

/-- `bta_dm_get_sco_index` (bta_dm_pm lines 1117-1126): the first connected
service entry that is AG in SCO_OPEN state (the source returns its index, or
-1; the model returns the entry itself, or none). -/
def bta_dm_get_sco_entry (srvcs : List PmSrvc) : Option PmSrvc :=
  srvcs.find? (fun s => s.id == BTA_ID_AG && s.state == BTA_SYS_SCO_OPEN)

/-- Whether the SCO lookup matches the given peer. -/
def sco_active_on (peer : Nat) (srvcs : List PmSrvc) : Bool :=
  match bta_dm_get_sco_entry srvcs with
  | some e => e.peer == peer
  | none => false

/-- The inner configuration scan of `bta_dm_pm_ssr` (lines 839-852): the
running index is overwritten with each visited row's spec SSR index and the
loop breaks on the first row matching the service; without a match the last
row's index (or the initial one for an empty table) survives. -/
def ssr_index_scan (specs : List PmSpec) (dfltSpec : PmSpec) (s : PmSrvc) :
    List PmCfg → Nat → Nat
  | [], cur => cur
  | c :: rest, _ =>
      let cur := (specAt specs c.spec_idx dfltSpec).ssr
      if c.id == s.id && (c.app_id == BTA_ALL_APP_ID || c.app_id == s.app_id) then cur
      else ssr_index_scan specs dfltSpec s rest cur

/-- The service loop of `bta_dm_pm_ssr` (lines 833-875), threading the
running SSR index and the SSR spec table (the HH row of the global table is
overwritten in place with the per-connection parameters read from BTA HH;
a failed HH read skips the service).  The candidate row replaces the running
one when it has a strictly smaller max latency, or when the running index is
SSR0 and the candidate is not. -/
def bta_dm_pm_ssr_loop (cfg : List PmCfg) (specs : List PmSpec) (dfltSpec : PmSpec)
    (hh : Nat → Option (Nat × Nat)) (peer : Nat) :
    List PmSrvc → Nat → (Nat → SsrSpec) → Nat × (Nat → SsrSpec)
  | [], idx, tbl => (idx, tbl)
  | s :: rest, idx, tbl =>
      if s.peer = peer then
        let cur := ssr_index_scan specs dfltSpec s cfg BTA_DM_PM_SSR0
        if cur = BTA_DM_PM_SSR_HH then
          match hh peer with
          | none => bta_dm_pm_ssr_loop cfg specs dfltSpec hh peer rest idx tbl
          | some p =>
              let tbl1 := fun k =>
                if k = BTA_DM_PM_SSR_HH then
                  { tbl k with max_lat := p.1, min_rmt_to := p.2 }
                else tbl k
              if (tbl1 cur).max_lat < (tbl1 idx).max_lat ∨
                  (idx = BTA_DM_PM_SSR0 ∧ cur ≠ BTA_DM_PM_SSR0) then
                bta_dm_pm_ssr_loop cfg specs dfltSpec hh peer rest cur tbl1
              else bta_dm_pm_ssr_loop cfg specs dfltSpec hh peer rest idx tbl1
        else
          if (tbl cur).max_lat < (tbl idx).max_lat ∨
              (idx = BTA_DM_PM_SSR0 ∧ cur ≠ BTA_DM_PM_SSR0) then
            bta_dm_pm_ssr_loop cfg specs dfltSpec hh peer rest cur tbl
          else bta_dm_pm_ssr_loop cfg specs dfltSpec hh peer rest idx tbl
      else bta_dm_pm_ssr_loop cfg specs dfltSpec hh peer rest idx tbl

/-- `bta_dm_pm_ssr` (lines 826-899): select the subrating row over the
peer's services, then, when its max latency is non-zero, issue the
`BTM_SetSsrParams` call — unless the SCO lookup matches this very peer, in
which case nothing is issued. -/
def bta_dm_pm_ssr (cfg : List PmCfg) (specs : List PmSpec) (dfltSpec : PmSpec)
    (sspec : Nat → SsrSpec) (hh : Nat → Option (Nat × Nat)) (peer ssr : Nat)
    (srvcs : List PmSrvc) : Option SsrCall :=
  let r := bta_dm_pm_ssr_loop cfg specs dfltSpec hh peer srvcs ssr sspec
  let sp := r.2 r.1
  if sp.max_lat ≠ 0 then
    match bta_dm_get_sco_entry srvcs with
    | some e =>
        if e.peer = peer then none
        else some ⟨peer, sp.max_lat, sp.min_rmt_to, sp.min_loc_to⟩
    | none => some ⟨peer, sp.max_lat, sp.min_rmt_to, sp.min_loc_to⟩
  else none

/-- External tables and collaborators of the classic PM callback. -/
structure PmEnv where
  cfg : List PmCfg
  specs : List PmSpec
  dfltSpec : PmSpec
  sspec : Nat → SsrSpec
  hh : Nat → Option (Nat × Nat)
  ctrlSsr : Bool
  remoteSsr : Nat → Bool
  cap : Nat

/-- The match predicate of the connected-services scan in `bta_dm_pm_cback`
(lines 404-411). -/
def srvcKey (id app_id peer : Nat) (s : PmSrvc) : Bool :=
  s.id == id && s.app_id == app_id && s.peer == peer

/-- Remove the first entry matching the predicate (the NO_PREF compaction,
lines 416-430). -/
def removeFirst (p : PmSrvc → Bool) : List PmSrvc → List PmSrvc
  | [] => []
  | s :: rest => if p s then rest else s :: removeFirst p rest

/-- Update the first entry matching the predicate. -/
def updateFirst (p : PmSrvc → Bool) (f : PmSrvc → PmSrvc) : List PmSrvc → List PmSrvc
  | [] => []
  | s :: rest => if p s then f s :: rest else s :: updateFirst p f rest

/-- The SSR tail of `bta_dm_pm_cback` (lines 467-492): when the selected
index's table row has a non-zero max latency (or is the HH row), run
`bta_dm_pm_ssr` — except for an AVDTP start; otherwise, when the controller
and the remote support sniff subrating and the index is SSR0, a SCO open
zeroes the SSR parameters directly and a SCO close re-runs `bta_dm_pm_ssr`
at SSR0. -/
def cback_ssr_calls (env : PmEnv) (status id peer index : Nat)
    (srvcs : List PmSrvc) : List SsrCall :=
  if (env.sspec index).max_lat ≠ 0 ∨ index = BTA_DM_PM_SSR_HH then
    if id = BTA_ID_AV ∧ status = BTA_SYS_CONN_BUSY then []
    else (bta_dm_pm_ssr env.cfg env.specs env.dfltSpec env.sspec env.hh
      peer index srvcs).toList
  else if env.ctrlSsr = true ∧ env.remoteSsr peer = true ∧ index = BTA_DM_PM_SSR0 then
    if status = BTA_SYS_SCO_OPEN then [⟨peer, 0, 0, 0⟩]
    else if status = BTA_SYS_SCO_CLOSE then
      (bta_dm_pm_ssr env.cfg env.specs env.dfltSpec env.sspec env.hh
        peer BTA_DM_PM_SSR0 srvcs).toList
    else []
  else []

/-- `bta_dm_pm_cback` (lines 344-492) restricted to its effect on the
connected-services table and the `BTM_SetSsrParams` calls it issues: the
configuration lookup (return when absent), the SSR index selection (spec
index on CONN_OPEN for an SSR-using device; SSR4 / spec index for AV on
BUSY / IDLE; SSR0 otherwise), the early return when the action is NO_ACTION
and the index SSR0, the table update (NO_PREF removal with compaction,
in-place state update, or bounded append), and the SSR tail.
`hasDev`/`useSsr` abstract the device-table lookup and its USE_SSR flag. -/
def bta_dm_pm_cback_ssr (env : PmEnv) (hasDev useSsr : Bool)
    (status id app_id peer : Nat) (srvcs : List PmSrvc) :
    List SsrCall × List PmSrvc :=
  match pm_cfg_lookup env.cfg id app_id with
  | none => ([], srvcs)
  | some c =>
    let sp := specAt env.specs c.spec_idx env.dfltSpec
    let index :=
      if status = BTA_SYS_CONN_OPEN ∧ hasDev = true ∧ useSsr = true then sp.ssr
      else if id = BTA_ID_AV ∧ status = BTA_SYS_CONN_BUSY then BTA_DM_PM_SSR4
      else if id = BTA_ID_AV ∧ status = BTA_SYS_CONN_IDLE then sp.ssr
      else BTA_DM_PM_SSR0
    if (sp.actn_tbl status).power_mode = BTA_DM_PM_NO_ACTION ∧
        index = BTA_DM_PM_SSR0 then ([], srvcs)
    else
      let found := (srvcs.findIdx? (srvcKey id app_id peer)).isSome
      if (sp.actn_tbl status).power_mode = BTA_DM_PM_NO_PREF then
        if found then
          let srvcs1 := removeFirst (srvcKey id app_id peer) srvcs
          (cback_ssr_calls env status id peer index srvcs1, srvcs1)
        else ([], srvcs)
      else if found then
        let srvcs1 := updateFirst (srvcKey id app_id peer)
          (fun s => { s with state := status, new_request := true }) srvcs
        (cback_ssr_calls env status id peer index srvcs1, srvcs1)
      else if srvcs.length = env.cap then ([], srvcs)
      else
        let srvcs1 := srvcs ++
          [{ id := id, app_id := app_id, state := status, peer := peer,
             new_request := true }]
        (cback_ssr_calls env status id peer index srvcs1, srvcs1)

theorem bta_dm_pm_ssr_sco_none (cfg : List PmCfg) (specs : List PmSpec)
    (dfltSpec : PmSpec) (sspec : Nat → SsrSpec) (hh : Nat → Option (Nat × Nat))
    (peer ssr : Nat) (srvcs : List PmSrvc)
    (h : sco_active_on peer srvcs = true) :
    bta_dm_pm_ssr cfg specs dfltSpec sspec hh peer ssr srvcs = none := by
  unfold sco_active_on at h
  cases hsco : bta_dm_get_sco_entry srvcs with
  | none => rw [hsco] at h; simp at h
  | some e =>
      rw [hsco] at h
      simp only [beq_iff_eq] at h
      simp [bta_dm_pm_ssr, hsco, h]

theorem cback_ssr_calls_sco (env : PmEnv) (status id peer index : Nat)
    (srvcs : List PmSrvc) (h : sco_active_on peer srvcs = true) :
    cback_ssr_calls env status id peer index srvcs = [] ∨
      cback_ssr_calls env status id peer index srvcs = [⟨peer, 0, 0, 0⟩] := by
  unfold cback_ssr_calls
  split_ifs <;>
    first
      | exact Or.inl rfl
      | exact Or.inr rfl
      | (left
         rw [bta_dm_pm_ssr_sco_none env.cfg env.specs env.dfltSpec env.sspec env.hh
           _ _ _ h]
         rfl)

/-- The concrete external tables of the C7 counterexample: one configuration
row mapping AG (any app id) to spec row 0, whose action for every status is
SNIFF with a 5 s timeout; every SSR table row has zero max latency;
controller and remote support sniff subrating. -/
def envC7 : PmEnv :=
  { cfg := [⟨BTA_ID_AG, BTA_ALL_APP_ID, 0⟩]
    specs := [{ allow_mask := BTA_DM_PM_SNIFF, ssr := 0,
                actn_tbl := fun _ => ⟨BTA_DM_PM_SNIFF, 5000⟩ }]
    dfltSpec := { allow_mask := 0, ssr := 0, actn_tbl := fun _ => ⟨0, 0⟩ }
    sspec := fun _ => ⟨0, 0, 0⟩
    hh := fun _ => none
    ctrlSsr := true
    remoteSsr := fun _ => true
    cap := 10 }

/-- C7 counterexample: an AG SCO_OPEN callback for peer 1 updates the peer's
AG entry to SCO_OPEN — so `bta_dm_get_sco_index` matches the peer while that
state holds — and nevertheless issues `BTM_SetSsrParams(peer, 0, 0, 0)` (the
SCO-open zeroing call, bta_dm_pm line 483), contradicting the claim that no
`BTM_SetSsrParams` call is ever issued for such a peer. -/
theorem C7_sco_zeroing_counterexample :
    sco_active_on 1
      (bta_dm_pm_cback_ssr envC7 true false BTA_SYS_SCO_OPEN BTA_ID_AG 0 1
        [⟨BTA_ID_AG, 0, BTA_SYS_APP_OPEN, 1, false⟩]).2 = true ∧
    (bta_dm_pm_cback_ssr envC7 true false BTA_SYS_SCO_OPEN BTA_ID_AG 0 1
      [⟨BTA_ID_AG, 0, BTA_SYS_APP_OPEN, 1, false⟩]).1 = [⟨1, 0, 0, 0⟩] :=
  ⟨rfl, rfl⟩

/-- C7 (amended): when the SCO lookup matches a peer, `bta_dm_pm_ssr` issues
no `BTM_SetSsrParams` call for that peer (the SCO guard returns early, and
likewise when the selected row's max latency is zero); and any single
`bta_dm_pm_cback` invocation whose resulting connected-services table has a
matching SCO entry issues for that peer at most the explicit SCO-open zeroing
call `BTM_SetSsrParams(peer, 0, 0, 0)`. -/
theorem C7_ssr_suppression_under_sco (env : PmEnv) (hasDev useSsr : Bool)
    (status id app_id peer ssr : Nat) (srvcs : List PmSrvc) :
    (sco_active_on peer srvcs = true →
      bta_dm_pm_ssr env.cfg env.specs env.dfltSpec env.sspec env.hh peer ssr
        srvcs = none) ∧
    (sco_active_on peer
        (bta_dm_pm_cback_ssr env hasDev useSsr status id app_id peer srvcs).2 = true →
      (bta_dm_pm_cback_ssr env hasDev useSsr status id app_id peer srvcs).1 = [] ∨
      (bta_dm_pm_cback_ssr env hasDev useSsr status id app_id peer srvcs).1 =
        [⟨peer, 0, 0, 0⟩]) := by
  constructor
  · exact bta_dm_pm_ssr_sco_none env.cfg env.specs env.dfltSpec env.sspec env.hh
      peer ssr srvcs
  · unfold bta_dm_pm_cback_ssr
    cases hc : pm_cfg_lookup env.cfg id app_id with
    | none => intro h; left; rfl
    | some c =>
        simp only []
        split_ifs with h1 h2 h3 h4 h5 <;> intro h <;>
          first
            | (left; rfl)
            | exact cback_ssr_calls_sco _ _ _ _ _ _ h

/-- Witness for `C7_ssr_suppression_under_sco` at the counterexample
environment with peer 1 already holding an AG service in SCO_OPEN state. -/
theorem C7_ssr_suppression_under_sco_witness :
    bta_dm_pm_ssr envC7.cfg envC7.specs envC7.dfltSpec envC7.sspec envC7.hh 1 0
      [⟨BTA_ID_AG, 0, BTA_SYS_SCO_OPEN, 1, true⟩] = none ∧
    ((bta_dm_pm_cback_ssr envC7 true false BTA_SYS_SCO_OPEN BTA_ID_AG 0 1
        [⟨BTA_ID_AG, 0, BTA_SYS_SCO_OPEN, 1, true⟩]).1 = [] ∨
      (bta_dm_pm_cback_ssr envC7 true false BTA_SYS_SCO_OPEN BTA_ID_AG 0 1
        [⟨BTA_ID_AG, 0, BTA_SYS_SCO_OPEN, 1, true⟩]).1 = [⟨1, 0, 0, 0⟩]) :=
  ⟨(C7_ssr_suppression_under_sco envC7 true false BTA_SYS_SCO_OPEN BTA_ID_AG 0 1 0
      [⟨BTA_ID_AG, 0, BTA_SYS_SCO_OPEN, 1, true⟩]).1 (by rfl),
   (C7_ssr_suppression_under_sco envC7 true false BTA_SYS_SCO_OPEN BTA_ID_AG 0 1 0
      [⟨BTA_ID_AG, 0, BTA_SYS_SCO_OPEN, 1, true⟩]).2 (by rfl)⟩

/-! ## Classic Power Manager: timer slot accounting
(bta_dm_pm lines 191-241, 255-297, 309-332, 952-982) -/

/-- Modelled from the spec: the end-of-enumeration sentinel `BTA_ID_MAX`
(`bta_sys.h`, outside the provided sources) marks an unassigned timer index;
only its distinctness from real service ids matters. -/
def BTA_ID_MAX : Nat := 255

/-- Modelled from the spec: the per-slot timer indices SUSPEND, PARK, SNIFF
(`bta_dm_int.h`, outside the provided sources). -/
def BTA_DM_PM_MODE_TIMER_MAX : Nat := 3

def BTA_DM_PM_SUSPEND_TIMER_IDX : Nat := 0

def BTA_DM_PM_PARK_TIMER_IDX : Nat := 1

def BTA_DM_PM_SNIFF_TIMER_IDX : Nat := 2

/-- One PM timer slot (`tBTA_PM_TIMER`): the `in_use` flag, the `active`
count, and per-index service ids and pm actions.  The `armed` fields are
ghost state tracking whether the underlying OSI alarm of each index is
scheduled (set by `alarm_set_on_mloop`, cleared by `alarm_cancel` and by the
alarm firing); they are written but never read by the modelled code. -/
structure PmTimerSlot where
  in_use : Bool
  active : Nat
  srvc_id0 : Nat
  srvc_id1 : Nat
  srvc_id2 : Nat
  pm_action0 : Nat
  pm_action1 : Nat
  pm_action2 : Nat
  armed0 : Bool
  armed1 : Bool
  armed2 : Bool
deriving DecidableEq, Repr

def PmTimerSlot.srvc (t : PmTimerSlot) : Nat → Nat
  | 0 => t.srvc_id0
  | 1 => t.srvc_id1
  | _ => t.srvc_id2

def setSrvc (t : PmTimerSlot) (j v : Nat) : PmTimerSlot :=
  match j with
  | 0 => { t with srvc_id0 := v }
  | 1 => { t with srvc_id1 := v }
  | _ => { t with srvc_id2 := v }

def PmTimerSlot.action (t : PmTimerSlot) : Nat → Nat
  | 0 => t.pm_action0
  | 1 => t.pm_action1
  | _ => t.pm_action2

def setAction (t : PmTimerSlot) (j v : Nat) : PmTimerSlot :=
  match j with
  | 0 => { t with pm_action0 := v }
  | 1 => { t with pm_action1 := v }
  | _ => { t with pm_action2 := v }

def PmTimerSlot.armed (t : PmTimerSlot) : Nat → Bool
  | 0 => t.armed0
  | 1 => t.armed1
  | _ => t.armed2

def setArmed (t : PmTimerSlot) (j : Nat) (v : Bool) : PmTimerSlot :=
  match j with
  | 0 => { t with armed0 := v }
  | 1 => { t with armed1 := v }
  | _ => { t with armed2 := v }

/-- `bta_dm_pm_start_timer` (lines 280-297): mark the slot in use, bump the
active count when the index was idle, keep the stricter (numerically larger)
pm action, assign the service id, and arm the alarm. -/
def bta_dm_pm_start_timer (t : PmTimerSlot) (timer_idx timeout_ms srvc_id
    pm_action : Nat) : PmTimerSlot :=
  let t1 := { t with in_use := true }
  let t2 := if t1.srvc timer_idx = BTA_ID_MAX then
      { t1 with active := t1.active + 1 } else t1
  let t3 := if t2.action timer_idx < pm_action then
      setAction t2 timer_idx pm_action else t2
  let t4 := setSrvc t3 timer_idx srvc_id
  setArmed t4 timer_idx true

/-- `bta_dm_pm_stop_timer_by_index` (lines 309-332): return when the index is
out of range or not scheduled; otherwise clear the service id (the pm action
is intentionally kept), decrement the active count, release the slot when it
reaches zero, and cancel the alarm. -/
def bta_dm_pm_stop_timer_by_index (t : PmTimerSlot) (timer_idx : Nat) :
    PmTimerSlot :=
  if BTA_DM_PM_MODE_TIMER_MAX ≤ timer_idx then t
  else if t.srvc timer_idx = BTA_ID_MAX then t
  else
    let t1 := setSrvc t timer_idx BTA_ID_MAX
    let t2 := { t1 with active := t1.active - 1 }
    let t3 := if t2.active = 0 then { t2 with in_use := false } else t2
    setArmed t3 timer_idx false

/-- `bta_pm_action_to_timer_idx` (lines 191-202). -/
def bta_pm_action_to_timer_idx (pm_action : Nat) : Nat :=
  if pm_action = BTA_DM_PM_SUSPEND then BTA_DM_PM_SUSPEND_TIMER_IDX
  else if pm_action = BTA_DM_PM_PARK then BTA_DM_PM_PARK_TIMER_IDX
  else if pm_action &&& BTA_DM_PM_SNIFF = BTA_DM_PM_SNIFF then
    BTA_DM_PM_SNIFF_TIMER_IDX
  else BTA_DM_PM_MODE_TIMER_MAX

/-- `bta_dm_pm_stop_timer_by_mode` (lines 211-235), restricted to the peer's
slot: stop the index of the given mode when it is scheduled and record the
mode as that index's pm action. -/
def bta_dm_pm_stop_timer_by_mode (t : PmTimerSlot) (power_mode : Nat) :
    PmTimerSlot :=
  let timer_idx := bta_pm_action_to_timer_idx power_mode
  if timer_idx = BTA_DM_PM_MODE_TIMER_MAX then t
  else if t.in_use then
    if t.srvc timer_idx ≠ BTA_ID_MAX then
      setAction (bta_dm_pm_stop_timer_by_index t timer_idx) timer_idx power_mode
    else t
  else t

/-- `bta_dm_pm_stop_timer_by_srvc_id` (lines 246-263), restricted to the
peer's slot: stop the first index assigned to the service and reset its pm
action. -/
def bta_dm_pm_stop_timer_by_srvc_id (t : PmTimerSlot) (srvc_id : Nat) :
    PmTimerSlot :=
  if t.in_use then
    if t.srvc 0 = srvc_id then
      setAction (bta_dm_pm_stop_timer_by_index t 0) 0 BTA_DM_PM_NO_ACTION
    else if t.srvc 1 = srvc_id then
      setAction (bta_dm_pm_stop_timer_by_index t 1) 1 BTA_DM_PM_NO_ACTION
    else if t.srvc 2 = srvc_id then
      setAction (bta_dm_pm_stop_timer_by_index t 2) 2 BTA_DM_PM_NO_ACTION
    else t
  else t

/-- `bta_dm_pm_stop_timer` (lines 164-177), restricted to the peer's slot:
stop every index (pm actions deliberately kept). -/
def bta_dm_pm_stop_timer (t : PmTimerSlot) : PmTimerSlot :=
  if t.in_use then
    bta_dm_pm_stop_timer_by_index
      (bta_dm_pm_stop_timer_by_index (bta_dm_pm_stop_timer_by_index t 0) 1) 2
  else t

/-- `bta_dm_pm_timer_cback` (lines 952-982) for an alarm belonging to index
`timer_idx` of this slot: when the slot is in use, decrement the active
count, clear the index's service id, release the slot when the count reaches
zero.  The source does not re-check that the index was scheduled — only the
alarm having been armed guarantees it. -/
def bta_dm_pm_timer_fire (t : PmTimerSlot) (timer_idx : Nat) : PmTimerSlot :=
  if t.in_use then
    let t1 := setSrvc ({ t with active := t.active - 1 }) timer_idx BTA_ID_MAX
    let t2 := setArmed t1 timer_idx false
    if t2.active = 0 then { t2 with in_use := false } else t2
  else t

/-- The operations of the PM timer bank on one slot. -/
inductive PmTimerOp
  | start (timer_idx timeout_ms srvc_id pm_action : Nat)
  | stopByIndex (timer_idx : Nat)
  | stopByMode (power_mode : Nat)
  | stopBySrvcId (srvc_id : Nat)
  | stopAll
  | fire (timer_idx : Nat)
deriving DecidableEq, Repr

def applyPmTimerOp (t : PmTimerSlot) : PmTimerOp → PmTimerSlot
  | .start j ms s a => bta_dm_pm_start_timer t j ms s a
  | .stopByIndex j => bta_dm_pm_stop_timer_by_index t j
  | .stopByMode m => bta_dm_pm_stop_timer_by_mode t m
  | .stopBySrvcId s => bta_dm_pm_stop_timer_by_srvc_id t s
  | .stopAll => bta_dm_pm_stop_timer t
  | .fire j => bta_dm_pm_timer_fire t j

def runPmTimerOps (t : PmTimerSlot) (ops : List PmTimerOp) : PmTimerSlot :=
  ops.foldl applyPmTimerOp t

/-- Which operations the surrounding code can actually perform on a slot:
callers of `bta_dm_pm_start_timer` pass an in-range index
(`bta_pm_action_to_timer_idx` result checked against the bound) and a real
service id (never the sentinel); an alarm fires only while it is armed. -/
def pmTimerOpValid (t : PmTimerSlot) : PmTimerOp → Bool
  | .start j _ s _ => decide (j < BTA_DM_PM_MODE_TIMER_MAX) && (s != BTA_ID_MAX)
  | .fire j => decide (j < BTA_DM_PM_MODE_TIMER_MAX) && t.armed j
  | _ => true

def validPmTimerOps (t : PmTimerSlot) : List PmTimerOp → Bool
  | [] => true
  | op :: rest => pmTimerOpValid t op && validPmTimerOps (applyPmTimerOp t op) rest

/-- The number of indices whose service id is assigned. -/
def assignedCount (t : PmTimerSlot) : Nat :=
  (if t.srvc_id0 = BTA_ID_MAX then 0 else 1) +
  (if t.srvc_id1 = BTA_ID_MAX then 0 else 1) +
  (if t.srvc_id2 = BTA_ID_MAX then 0 else 1)

/-- The slot state after `bta_dm_init_pm` (lines 92-107): zeroed control
block with every service id set to the sentinel. -/
def pmInitSlot : PmTimerSlot :=
  { in_use := false, active := 0,
    srvc_id0 := BTA_ID_MAX, srvc_id1 := BTA_ID_MAX, srvc_id2 := BTA_ID_MAX,
    pm_action0 := 0, pm_action1 := 0, pm_action2 := 0,
    armed0 := false, armed1 := false, armed2 := false }

/-- The slot accounting invariant as a proposition. -/
def slotInv (t : PmTimerSlot) : Prop :=
  t.active = assignedCount t ∧ (t.in_use = true ↔ 0 < t.active) ∧
  (t.armed0 = true ↔ t.srvc_id0 ≠ BTA_ID_MAX) ∧
  (t.armed1 = true ↔ t.srvc_id1 ≠ BTA_ID_MAX) ∧
  (t.armed2 = true ↔ t.srvc_id2 ≠ BTA_ID_MAX)

theorem slotInv_setAction (t : PmTimerSlot) (j v : Nat) (h : slotInv t) :
    slotInv (setAction t j v) := by
  unfold setAction
  split <;> exact h

theorem slotInv_start (t : PmTimerSlot) (j ms s a : Nat) (hj : j < 3)
    (hs : s ≠ BTA_ID_MAX) (h : slotInv t) :
    slotInv (bta_dm_pm_start_timer t j ms s a) := by
  obtain ⟨h1, h2, h3, h4, h5⟩ := h
  have hj3 : j = 0 ∨ j = 1 ∨ j = 2 := by omega
  rcases hj3 with rfl | rfl | rfl <;>
    (simp only [bta_dm_pm_start_timer, PmTimerSlot.srvc, PmTimerSlot.action,
       slotInv, assignedCount, setSrvc, setAction, setArmed] at h1 h2 ⊢
     split_ifs at h1 ⊢ <;> simp_all [hs] <;> omega)

theorem slotInv_stop_by_index (t : PmTimerSlot) (j : Nat) (h : slotInv t) :
    slotInv (bta_dm_pm_stop_timer_by_index t j) := by
  obtain ⟨h1, h2, h3, h4, h5⟩ := h
  by_cases hj : BTA_DM_PM_MODE_TIMER_MAX ≤ j
  · simp only [bta_dm_pm_stop_timer_by_index, if_pos hj]
    exact ⟨h1, h2, h3, h4, h5⟩
  · have hj3 : j = 0 ∨ j = 1 ∨ j = 2 := by
      unfold BTA_DM_PM_MODE_TIMER_MAX at hj; omega
    rcases hj3 with rfl | rfl | rfl <;>
      (simp only [bta_dm_pm_stop_timer_by_index, if_neg hj, PmTimerSlot.srvc,
         slotInv, assignedCount, setSrvc, setArmed] at h1 h2 ⊢
       split_ifs at h1 ⊢ <;> simp_all <;> omega)

theorem slotInv_fire (t : PmTimerSlot) (j : Nat) (hj : j < 3)
    (ha : t.armed j = true) (h : slotInv t) :
    slotInv (bta_dm_pm_timer_fire t j) := by
  obtain ⟨h1, h2, h3, h4, h5⟩ := h
  have hj3 : j = 0 ∨ j = 1 ∨ j = 2 := by omega
  rcases hj3 with rfl | rfl | rfl <;>
    (simp only [PmTimerSlot.armed] at ha
     simp only [bta_dm_pm_timer_fire, PmTimerSlot.srvc, slotInv, assignedCount,
       setSrvc, setArmed] at h1 h2 ⊢
     split_ifs at h1 ⊢ <;> simp_all <;> omega)

theorem slotInv_stop_by_mode (t : PmTimerSlot) (m : Nat) (h : slotInv t) :
    slotInv (bta_dm_pm_stop_timer_by_mode t m) := by
  unfold bta_dm_pm_stop_timer_by_mode
  simp only []
  split_ifs <;>
    first
      | exact h
      | exact slotInv_setAction _ _ _ (slotInv_stop_by_index _ _ h)

theorem slotInv_stop_by_srvc_id (t : PmTimerSlot) (s : Nat) (h : slotInv t) :
    slotInv (bta_dm_pm_stop_timer_by_srvc_id t s) := by
  unfold bta_dm_pm_stop_timer_by_srvc_id
  split_ifs <;>
    first
      | exact h
      | exact slotInv_setAction _ _ _ (slotInv_stop_by_index _ _ h)

theorem slotInv_stop_all (t : PmTimerSlot) (h : slotInv t) :
    slotInv (bta_dm_pm_stop_timer t) := by
  unfold bta_dm_pm_stop_timer
  split_ifs
  · exact slotInv_stop_by_index _ _ (slotInv_stop_by_index _ _
      (slotInv_stop_by_index _ _ h))
  · exact h

theorem slotInv_step (t : PmTimerSlot) (op : PmTimerOp) (h : slotInv t)
    (hv : pmTimerOpValid t op = true) : slotInv (applyPmTimerOp t op) := by
  cases op with
  | start j ms s a =>
      simp only [pmTimerOpValid, Bool.and_eq_true, decide_eq_true_eq,
        bne_iff_ne, BTA_DM_PM_MODE_TIMER_MAX] at hv
      exact slotInv_start t j ms s a hv.1 hv.2 h
  | stopByIndex j => exact slotInv_stop_by_index t j h
  | stopByMode m => exact slotInv_stop_by_mode t m h
  | stopBySrvcId s => exact slotInv_stop_by_srvc_id t s h
  | stopAll => exact slotInv_stop_all t h
  | fire j =>
      simp only [pmTimerOpValid, Bool.and_eq_true, decide_eq_true_eq,
        BTA_DM_PM_MODE_TIMER_MAX] at hv
      exact slotInv_fire t j hv.1 hv.2 h

/-- C8: over every interleaving of timer starts, stops (by index, by mode,
by service id, or all at once) and alarm firings that the surrounding code
can perform (starts carry an in-range index and a real service id; an alarm
only fires while armed), a slot satisfying the accounting invariant keeps
satisfying it: the active count equals the number of timer indices whose
service id is assigned (not the BTA_ID_MAX sentinel), and `in_use` holds
exactly when the active count is positive. -/
theorem C8_timer_slot_accounting (t : PmTimerSlot) (ops : List PmTimerOp)
    (hinv : slotInv t) (hval : validPmTimerOps t ops = true) :
    (runPmTimerOps t ops).active = assignedCount (runPmTimerOps t ops) ∧
    ((runPmTimerOps t ops).in_use = true ↔ 0 < (runPmTimerOps t ops).active) := by
  have main : slotInv (runPmTimerOps t ops) := by
    induction ops generalizing t with
    | nil => exact hinv
    | cons op rest ih =>
        simp only [validPmTimerOps, Bool.and_eq_true] at hval
        exact ih (applyPmTimerOp t op) (slotInv_step t op hinv hval.1) hval.2
  exact ⟨main.1, main.2.1⟩

/-- A concrete operation interleaving for the C8 witness. -/
def c8ops : List PmTimerOp :=
  [.start 2 5000 7 0x20, .start 0 100 9 0x04, .fire 2, .stopBySrvcId 9,
   .start 1 200 7 0x10, .stopByMode 0x10, .stopAll]

/-- Witness for `C8_timer_slot_accounting` on the freshly initialized slot
and a concrete interleaving. -/
theorem C8_timer_slot_accounting_witness :
    slotInv pmInitSlot ∧
    validPmTimerOps pmInitSlot c8ops = true ∧
    ((runPmTimerOps pmInitSlot c8ops).active =
        assignedCount (runPmTimerOps pmInitSlot c8ops) ∧
      ((runPmTimerOps pmInitSlot c8ops).in_use = true ↔
        0 < (runPmTimerOps pmInitSlot c8ops).active)) :=
  ⟨by unfold slotInv; decide, by decide,
    C8_timer_slot_accounting pmInitSlot c8ops (by unfold slotInv; decide)
      (by decide)⟩

end BtStack
